import Mathlib

/-!
Shallow embedding of the weather/air-quality analytics pipeline
(`src/clients/weather_client.py`, `src/clients/air_quality_client.py`,
`src/etl/fetch_and_load_weather.py`, `src/etl/transform_to_analytics.py`).

Python dict/list payloads are modelled by the `Json` type below; numbers are
exact rationals (the idealised semantics of the Python floats/ints involved).
External effects (HTTP responses, clock readings, the database driver) are
parameters of the embedded functions; Python exceptions are modelled with
`Except`, carrying the exception's message.
-/

namespace WeatherPipeline

/-- JSON-like Python values (dicts, lists, numbers, strings, booleans, None).
Numbers are exact rationals; dicts are insertion-ordered key/value lists with
distinct keys, as produced by the code under study. -/
inductive Json where
  | null : Json
  | bool : Bool → Json
  | num : ℚ → Json
  | str : String → Json
  | arr : List Json → Json
  | obj : List (String × Json) → Json
deriving Repr, Inhabited

mutual

def Json.decEq : (a b : Json) → Decidable (a = b)
  | .null, .null => isTrue rfl
  | .bool x, .bool y =>
    if h : x = y then isTrue (by rw [h]) else isFalse (fun hh => h (Json.bool.inj hh))
  | .num x, .num y =>
    if h : x = y then isTrue (by rw [h]) else isFalse (fun hh => h (Json.num.inj hh))
  | .str x, .str y =>
    if h : x = y then isTrue (by rw [h]) else isFalse (fun hh => h (Json.str.inj hh))
  | .arr xs, .arr ys =>
    match Json.decEqList xs ys with
    | isTrue h => isTrue (by rw [h])
    | isFalse h => isFalse (fun hh => h (Json.arr.inj hh))
  | .obj xs, .obj ys =>
    match Json.decEqFields xs ys with
    | isTrue h => isTrue (by rw [h])
    | isFalse h => isFalse (fun hh => h (Json.obj.inj hh))
  | .null, .bool _ => isFalse Json.noConfusion
  | .null, .num _ => isFalse Json.noConfusion
  | .null, .str _ => isFalse Json.noConfusion
  | .null, .arr _ => isFalse Json.noConfusion
  | .null, .obj _ => isFalse Json.noConfusion
  | .bool _, .null => isFalse Json.noConfusion
  | .bool _, .num _ => isFalse Json.noConfusion
  | .bool _, .str _ => isFalse Json.noConfusion
  | .bool _, .arr _ => isFalse Json.noConfusion
  | .bool _, .obj _ => isFalse Json.noConfusion
  | .num _, .null => isFalse Json.noConfusion
  | .num _, .bool _ => isFalse Json.noConfusion
  | .num _, .str _ => isFalse Json.noConfusion
  | .num _, .arr _ => isFalse Json.noConfusion
  | .num _, .obj _ => isFalse Json.noConfusion
  | .str _, .null => isFalse Json.noConfusion
  | .str _, .bool _ => isFalse Json.noConfusion
  | .str _, .num _ => isFalse Json.noConfusion
  | .str _, .arr _ => isFalse Json.noConfusion
  | .str _, .obj _ => isFalse Json.noConfusion
  | .arr _, .null => isFalse Json.noConfusion
  | .arr _, .bool _ => isFalse Json.noConfusion
  | .arr _, .num _ => isFalse Json.noConfusion
  | .arr _, .str _ => isFalse Json.noConfusion
  | .arr _, .obj _ => isFalse Json.noConfusion
  | .obj _, .null => isFalse Json.noConfusion
  | .obj _, .bool _ => isFalse Json.noConfusion
  | .obj _, .num _ => isFalse Json.noConfusion
  | .obj _, .str _ => isFalse Json.noConfusion
  | .obj _, .arr _ => isFalse Json.noConfusion

def Json.decEqList : (a b : List Json) → Decidable (a = b)
  | [], [] => isTrue rfl
  | [], _ :: _ => isFalse (fun h => List.noConfusion h)
  | _ :: _, [] => isFalse (fun h => List.noConfusion h)
  | x :: xs, y :: ys =>
    match Json.decEq x y with
    | isTrue h1 =>
      match Json.decEqList xs ys with
      | isTrue h2 => isTrue (by rw [h1, h2])
      | isFalse h2 => isFalse (fun hh => h2 (List.cons.inj hh).2)
    | isFalse h1 => isFalse (fun hh => h1 (List.cons.inj hh).1)

def Json.decEqFields : (a b : List (String × Json)) → Decidable (a = b)
  | [], [] => isTrue rfl
  | [], _ :: _ => isFalse (fun h => List.noConfusion h)
  | _ :: _, [] => isFalse (fun h => List.noConfusion h)
  | (k, x) :: xs, (l, y) :: ys =>
    if hk : k = l then
      match Json.decEq x y with
      | isTrue hx =>
        match Json.decEqFields xs ys with
        | isTrue ht => isTrue (by rw [hk, hx, ht])
        | isFalse ht => isFalse (fun hh => ht (List.cons.inj hh).2)
      | isFalse hx => isFalse (fun hh => hx (Prod.mk.inj (List.cons.inj hh).1).2)
    else isFalse (fun hh => hk (Prod.mk.inj (List.cons.inj hh).1).1)

end

instance : DecidableEq Json := Json.decEq

instance {ε α : Type} [DecidableEq ε] [DecidableEq α] : DecidableEq (Except ε α) := fun a b =>
  match a, b with
  | .ok x, .ok y =>
    if h : x = y then isTrue (by rw [h]) else isFalse (fun hh => h (by injection hh))
  | .error x, .error y =>
    if h : x = y then isTrue (by rw [h]) else isFalse (fun hh => h (by injection hh))
  | .ok _, .error _ => isFalse (fun hh => Except.noConfusion hh)
  | .error _, .ok _ => isFalse (fun hh => Except.noConfusion hh)

/-- The characters of `s` before the first occurrence of `sep`, or `none`
when `sep` does not occur: the character-level core of Python's
`s.split(sep)[0]` for a single-character separator. -/
def splitHead (sep : Char) : List Char → Option (List Char)
  | [] => none
  | c :: cs => if c = sep then some [] else (splitHead sep cs).map (c :: ·)

/-- Python `s.split(sep)[0]` for a one-character separator: the prefix before
the first occurrence, or all of `s` when the separator does not occur. -/
def pySplitFirst (sep : Char) (s : String) : String :=
  match splitHead sep s.toList with
  | some cs => String.mk cs
  | none => s

namespace Json

/-- Dict lookup: `d.get(k)` on a dict, `none` when the key is absent.
Non-dict values have no keys (callers that would raise in Python go through
the `py…` helpers below instead). -/
def lookup : Json → String → Option Json
  | .obj fs, k => fs.lookup k
  | _, _ => none

/-- `k in d` specialised to the dict payloads built by the pipeline itself. -/
def hasKey (j : Json) (k : String) : Bool := (j.lookup k).isSome

/-- Python truthiness of a value. -/
def truthy : Json → Bool
  | .null => false
  | .bool b => b
  | .num q => q ≠ 0
  | .str s => s ≠ ""
  | .arr xs => ¬ xs.isEmpty
  | .obj fs => ¬ fs.isEmpty

/-- Rendering of a rational as Python renders the corresponding number in an
f-string (integers print without a fractional part; the pipeline only
interpolates integer-valued numbers into messages). -/
def ratStr (q : ℚ) : String :=
  if q.den = 1 then toString q.num else toString q.num ++ "/" ++ toString q.den

/-- Python `str()` of a value, as used by f-string interpolation in the issue
and error messages. Container rendering is abbreviated: no message that any
claim touches interpolates a container. -/
def pyStr : Json → String
  | .null => "None"
  | .bool true => "True"
  | .bool false => "False"
  | .num q => ratStr q
  | .str s => s
  | .arr _ => "<list>"
  | .obj _ => "<dict>"

/-- Dict assignment `d[k] = v`: overwrite in place (keeping the key's original
position, as Python dicts do) or append a fresh key. Only ever applied to
dicts by the embedded code. -/
def setKey : Json → String → Json → Json
  | .obj fs, k, v =>
    .obj (if fs.any (·.1 == k) then fs.map (fun p => if p.1 == k then (k, v) else p)
          else fs ++ [(k, v)])
  | j, _, _ => j

/-- Python `k in j`: key test on dicts, membership on lists, substring test on
strings; a `TypeError` on other values. -/
def pyContains (k : String) : Json → Except String Bool
  | .obj fs => .ok (fs.any (·.1 == k))
  | .arr xs => .ok (xs.any (fun x => decide (x = Json.str k)))
  | .str s => .ok (decide (k.toList <:+: s.toList))
  | _ => .error "TypeError: argument is not iterable"

/-- Python `j.get(k, d)`: an `AttributeError` when `j` is not a dict. -/
def pyGetD (j : Json) (k : String) (d : Json) : Except String Json :=
  match j with
  | .obj _ => .ok ((j.lookup k).getD d)
  | _ => .error "AttributeError: get"

/-- Python `j.get(k)` (`None` default): an `AttributeError` when `j` is not a
dict. -/
def pyGetOpt (j : Json) (k : String) : Except String Json :=
  pyGetD j k .null

/-- Python subscript `j[k]` with a string key: `KeyError` on a dict missing
the key, `TypeError` on lists/strings/others. -/
def pySubscript (j : Json) (k : String) : Except String Json :=
  match j with
  | .obj _ =>
    match j.lookup k with
    | some v => .ok v
    | none => .error ("KeyError: " ++ k)
  | _ => .error "TypeError: indices must be integers"

/-- Python subscript `j[0]`: first element of a list or first character of a
string; `IndexError` when empty, `TypeError` otherwise. -/
def pyIndexZero : Json → Except String Json
  | .arr (x :: _) => .ok x
  | .arr [] => .error "list index out of range"
  | .str s =>
    match s.toList with
    | c :: _ => .ok (.str (String.mk [c]))
    | [] => .error "string index out of range"
  | _ => .error "TypeError: not subscriptable"

/-- Numeric view of a value, as Python's arithmetic/comparison operators see
it (`bool` is an `int` in Python); a `TypeError` for non-numbers. -/
def asNum : Json → Except String ℚ
  | .num q => .ok q
  | .bool b => .ok (if b then 1 else 0)
  | _ => .error "TypeError: not a number"

end Json

/-- Round half to even (Python's rounding mode for `round`). -/
def roundHalfEven (q : ℚ) : Int :=
  let f := ⌊q⌋
  let frac := q - f
  if frac < 1 / 2 then f
  else if frac > 1 / 2 then f + 1
  else if f % 2 = 0 then f else f + 1

/-- Python `round(q, nd)` in exact arithmetic. -/
def pyRound (q : ℚ) (nd : Nat) : ℚ :=
  (roundHalfEven (q * 10 ^ nd) : ℚ) / 10 ^ nd

/-- Python `round(q)` (no digit count): rounds to an integer. -/
def pyRoundInt (q : ℚ) : ℚ := (roundHalfEven q : ℚ)

/-! ## Source Client: `src/clients/weather_client.py` -/

/-- What one HTTP attempt observes: a response with a status code and parsed
JSON body, `requests.exceptions.Timeout`, or any other
`requests.exceptions.RequestException` (connection failure, malformed body),
each carrying its `str()` message. -/
inductive Outcome where
  | status (code : Nat) (body : Json)
  | timeout (msg : String)
  | reqErr (msg : String)
deriving DecidableEq, Repr

/-- `str()` of the `requests.exceptions.HTTPError` raised by
`response.raise_for_status()` on a 4xx/5xx response; the provider-dependent
text is summarised by the status code. -/
def httpErrorMsg (code : Nat) : String := "HTTP error " ++ toString code

/-- The retry loop of `WeatherClient._make_request` (weather_client.py lines
36-63), with each attempt's outcome supplied by `env`.  Returns the result —
`.ok` body or `.error` raised-exception message — paired with the number of
attempts performed.  `attempt` is the index of the next attempt and
`remaining` the loop iterations left; `remaining = 0` is falling off the loop
into the terminal raise at line 63.  The backoff sleep has no observable
effect in this model. -/
def makeRequestFrom (env : Nat → Outcome) : Nat → Nat → Except String Json × Nat
  | attempt, 0 => (.error "Max retries exceeded", attempt)
  | attempt, remaining + 1 =>
    match env attempt with
    | .status code body =>
      if code = 401 then (.error "Invalid API key (401 Unauthorized)", attempt + 1)
      else if code = 404 then (.error "Location not found (404)", attempt + 1)
      else if code = 429 then makeRequestFrom env (attempt + 1) remaining
      else if 400 ≤ code ∧ code < 600 then
        if remaining = 0 then (.error (httpErrorMsg code), attempt + 1)
        else makeRequestFrom env (attempt + 1) remaining
      else (.ok body, attempt + 1)
    | .timeout msg =>
      if remaining = 0 then (.error msg, attempt + 1)
      else makeRequestFrom env (attempt + 1) remaining
    | .reqErr msg =>
      if remaining = 0 then (.error msg, attempt + 1)
      else makeRequestFrom env (attempt + 1) remaining

/-- `WeatherClient._make_request` with its attempt budget (`retries = 3` at
every call site). -/
def make_request (env : Nat → Outcome) (retries : Nat) : Except String Json × Nat :=
  makeRequestFrom env 0 retries

/-- A retryable failure in the claim's sense: a rate-limit response, a 5xx
response, or a timeout (the code also retries any other request exception;
those are not needed below). -/
def retryableOutcome : Outcome → Prop
  | .status code _ => code = 429 ∨ (500 ≤ code ∧ code < 600)
  | .timeout _ => True
  | .reqErr _ => True

/-- The query string built by `get_current_weather_by_city` (lines 77-80). -/
def weatherQuery (city : String) (country : Option String) : String :=
  match country with
  | some cc => city ++ "," ++ cc
  | none => city

/-- The error envelope built by the client's fetch methods (lines 109-113):
cause, capture timestamp, echo of the query. -/
def errorEnvelope (cause now query : String) : Json :=
  .obj [("error", .str cause), ("api_timestamp", .str now), ("query", .str query)]

/-- The `try:` body of `get_current_weather_by_city` after `_make_request`
returned data (lines 96-105): the `cod` check — whose raised `ValueError`
travels as `.error` — and the metadata enrichment. -/
def weatherSuccessBody (data : Json) (query now : String) : Except String Json := do
  let cod ← data.pyGetOpt "cod"
  if cod ≠ Json.num 200 then
    let m ← data.pyGetD "message" (.str "Unknown API error")
    throw ("OpenWeatherMap API error: " ++ m.pyStr)
  else
    pure ((data.setKey "api_timestamp" (.str now)).setKey "query" (.str query))

/-- `WeatherClient.get_current_weather_by_city` (lines 65-113): fetch with
retries, check and enrich, catching every failure into the error envelope.
`now` models `datetime.utcnow().isoformat()`. -/
def get_current_weather_by_city (env : Nat → Outcome) (city : String)
    (country : Option String) (now : String) : Json :=
  let query := weatherQuery city country
  let fetched : Except String Json := do
    let data ← (make_request env 3).1
    weatherSuccessBody data query now
  match fetched with
  | .ok j => j
  | .error e => errorEnvelope e now query

/-- The `try:` body of `extract_key_metrics` (lines 263-288), each
Python step that can raise threaded through `Except`.  `isoOfEpoch` models
`datetime.utcfromtimestamp(·).isoformat()`, the standard library's calendar
rendering. -/
def extractMetricsCore (isoOfEpoch : ℚ → String) (wd : Json) : Except String Json := do
  let main ← wd.pyGetD "main" (.obj [])
  let weatherList ← wd.pyGetD "weather" (.arr [.obj []])
  let weather ← weatherList.pyIndexZero
  let wind ← wd.pyGetD "wind" (.obj [])
  let clouds ← wd.pyGetD "clouds" (.obj [])
  let sys ← wd.pyGetD "sys" (.obj [])
  let country ← sys.pyGetOpt "country"
  let coord ← wd.pyGetD "coord" (.obj [])
  let lat ← coord.pyGetOpt "lat"
  let lon ← coord.pyGetOpt "lon"
  let temp ← main.pyGetOpt "temp"
  let feels ← main.pyGetOpt "feels_like"
  let tmin ← main.pyGetOpt "temp_min"
  let tmax ← main.pyGetOpt "temp_max"
  let pres ← main.pyGetOpt "pressure"
  let hum ← main.pyGetOpt "humidity"
  let wMain ← weather.pyGetOpt "main"
  let wDesc ← weather.pyGetOpt "description"
  let cloudAll ← clouds.pyGetOpt "all"
  let wSpeed ← wind.pyGetOpt "speed"
  let wDeg ← wind.pyGetOpt "deg"
  let dtv ← wd.pyGetD "dt" (.num 0)
  let dtq ← dtv.asNum
  pure (.obj [
    ("city", (wd.lookup "name").getD .null),
    ("country", country),
    ("latitude", lat),
    ("longitude", lon),
    ("temperature", temp),
    ("feels_like", feels),
    ("temperature_min", tmin),
    ("temperature_max", tmax),
    ("pressure", pres),
    ("humidity", hum),
    ("weather_main", wMain),
    ("weather_description", wDesc),
    ("cloudiness", cloudAll),
    ("wind_speed", wSpeed),
    ("wind_direction", wDeg),
    ("visibility", (wd.lookup "visibility").getD .null),
    ("observation_time", .str (isoOfEpoch dtq)),
    ("api_timestamp", (wd.lookup "api_timestamp").getD .null)])

/-- `WeatherClient.extract_key_metrics` (lines 258-292).  A payload carrying
an `'error'` key is passed through; a parsing failure is caught into a
cause-only envelope (line 292). -/
def extract_key_metrics (isoOfEpoch : ℚ → String) (wd : Json) : Json :=
  if wd.hasKey "error" then wd
  else
    match extractMetricsCore isoOfEpoch wd with
    | .ok j => j
    | .error e => .obj [("error", .str ("Failed to parse weather data: " ++ e))]

/-! ## Pipeline Orchestrator: `src/etl/fetch_and_load_weather.py` -/

/-- Dict insert with Python semantics: overwriting keeps the key's original
position, a fresh key is appended. -/
def dictInsert (d : List (String × Json)) (k : String) (v : Json) :
    List (String × Json) :=
  if d.any (·.1 == k) then d.map (fun p => if p.1 == k then (k, v) else p)
  else d ++ [(k, v)]

/-- `WeatherClient.get_weather_for_cities` (weather_client.py lines 238-256):
one fetch per configured city into a dict keyed by the city input.
`weatherOf` gives each city's `get_current_weather_by_city` result (the
client catches all its failures, so the `except` at line 248 is dead code); a
duplicated city overwrites its earlier entry as Python dict assignment does. -/
def get_weather_for_cities (weatherOf : String → Json) (cities : List String) :
    List (String × Json) :=
  cities.foldl (fun d c => dictInsert d c (weatherOf c)) []

/-- The air-quality payload synthesized by `fetch_air_quality_data` for a city
whose weather fetch failed (fetch_and_load_weather.py lines 64-67). -/
def aqiUnavailable (now : String) : Json :=
  .obj [("error", .str "Weather data unavailable"), ("api_timestamp", .str now)]

/-- `WeatherETL.fetch_air_quality_data` (fetch_and_load_weather.py lines
45-69).  `getAqi` is the external air-quality client
(`AirQualityClient.get_aqi_for_weather_data`), modelled as an oracle; `now`
models `datetime.utcnow().isoformat()`. -/
def fetch_air_quality_data (getAqi : Json → Json) (now : String)
    (weatherData : List (String × Json)) : List (String × Json) :=
  weatherData.map (fun cw =>
    if cw.2.hasKey "error" then (cw.1, aqiUnavailable now)
    else (cw.1, getAqi cw.2))

/-- The unit of persistence prepared by `prepare_observation_record`:
`observation_time` is in epoch seconds (`datetime` values are identified with
their timestamps), and the payload fields hold the values whose `json.dumps`
serialisation the row stores. -/
structure ObservationRecord where
  city : Json
  country : Json
  latitude : Json
  longitude : Json
  observation_time : ℚ
  weather_data : Json
  air_quality_data : Option Json
deriving DecidableEq, Repr

/-- `WeatherETL.prepare_observation_record` (lines 71-107).  `nowEpoch` models
`datetime.utcnow()` as an epoch timestamp.  A raised exception (malformed
coordinates, non-numeric `dt`) propagates to `run_etl`'s handler. -/
def prepare_observation_record (nowEpoch : ℚ) (city : String)
    (weatherData aqiData : Json) : Except String ObservationRecord := do
  let cityFallback := pySplitFirst ',' city
  if weatherData.hasKey "error" then
    pure { city := .str cityFallback, country := .null, latitude := .null,
           longitude := .null, observation_time := nowEpoch,
           weather_data := weatherData,
           air_quality_data := if aqiData.truthy then some aqiData else none }
  else do
    let coord ← weatherData.pyGetD "coord" (.obj [])
    let lat ← coord.pyGetOpt "lat"
    let lon ← coord.pyGetOpt "lon"
    let cityName ← weatherData.pyGetD "name" (.str cityFallback)
    let sys ← weatherData.pyGetD "sys" (.obj [])
    let country ← sys.pyGetOpt "country"
    let dtv ← weatherData.pyGetD "dt" (.num 0)
    let dtq ← dtv.asNum
    pure { city := if cityName.truthy then cityName else .str cityFallback,
           country := country, latitude := lat, longitude := lon,
           observation_time := dtq, weather_data := weatherData,
           air_quality_data := if aqiData.truthy then some aqiData else none }

/-- The external collaborators and clock readings of one `run_etl` run.
`load` models `load_observations_to_db`'s database interaction
(`executemany` + commit): the reported row count, or a raised failure.
Clock readings are supplied explicitly. -/
structure EtlEnv where
  weatherOf : String → Json
  getAqi : Json → Json
  load : List ObservationRecord → Except String Nat
  nowIso : String
  nowEpoch : ℚ
  startIso : String
  endIso : String
  duration : ℚ

/-- The summary dict returned by `run_etl`; a field of `none` models an
absent key (the error-path summary at lines 208-214 carries no counts). -/
structure EtlSummary where
  start_time : String
  end_time : String
  duration_seconds : ℚ
  cities_processed : Option Nat
  records_loaded : Option Nat
  weather_successes : Option Nat
  weather_errors : Option Nat
  aqi_successes : Option Nat
  aqi_errors : Option Nat
  status : String
  error : Option String
deriving DecidableEq, Repr

/-- The record-preparation loop of `run_etl` (lines 169-175): one
`prepare_observation_record` per configured city, looking each city up in
the two fetch dicts with `{}` as the missing-key default. -/
def etlObservations (env : EtlEnv) (cities : List String) :
    Except String (List ObservationRecord) :=
  cities.mapM (fun city =>
    prepare_observation_record env.nowEpoch city
      (((get_weather_for_cities env.weatherOf cities).lookup city).getD (.obj []))
      (((fetch_air_quality_data env.getAqi env.nowIso
          (get_weather_for_cities env.weatherOf cities)).lookup city).getD (.obj [])))

/-- The `try:` body of `run_etl` (lines 161-200): fetch both sources, prepare
one record per configured city, load the batch.  Returns both per-source
dicts, the batch handed to the upserter, and the loaded count. -/
def etlCore (env : EtlEnv) (cities : List String) :
    Except String
      (List (String × Json) × List (String × Json) × List ObservationRecord × Nat) := do
  let weatherData := get_weather_for_cities env.weatherOf cities
  let aqiData := fetch_air_quality_data env.getAqi env.nowIso weatherData
  let observations ← etlObservations env cities
  let loaded ← if observations.isEmpty then pure 0 else env.load observations
  pure (weatherData, aqiData, observations, loaded)

/-- Number of dict values without an `'error'` key (run_etl lines 190, 192). -/
def countOk (d : List (String × Json)) : Nat :=
  (d.filter (fun p => !(p.2.hasKey "error"))).length

/-- Number of dict values carrying an `'error'` key (lines 191, 193). -/
def countErr (d : List (String × Json)) : Nat :=
  (d.filter (fun p => p.2.hasKey "error")).length

/-- `WeatherETL.run_etl` (lines 151-214). -/
def run_etl (env : EtlEnv) (cities : List String) : EtlSummary :=
  match etlCore env cities with
  | .ok (weatherData, aqiData, _observations, loaded) =>
    { start_time := env.startIso, end_time := env.endIso,
      duration_seconds := env.duration,
      cities_processed := some cities.length,
      records_loaded := some loaded,
      weather_successes := some (countOk weatherData),
      weather_errors := some (countErr weatherData),
      aqi_successes := some (countOk aqiData),
      aqi_errors := some (countErr aqiData),
      status := "success", error := none }
  | .error e =>
    { start_time := env.startIso, end_time := env.endIso,
      duration_seconds := env.duration,
      cities_processed := none, records_loaded := none,
      weather_successes := none, weather_errors := none,
      aqi_successes := none, aqi_errors := none,
      status := "error", error := some e }

/-! ## Persistence Upserter: `WeatherETL.load_observations_to_db` and the
schema of `src/db.py` -/

/-- A row of `raw.weather_observations` (schema in `src/db.py` lines
135-148): surrogate id, natural-key columns, payloads, audit timestamps. -/
structure Row where
  id : Nat
  city : Json
  country : Json
  latitude : Json
  longitude : Json
  observation_time : ℚ
  weather_data : Json
  air_quality_data : Option Json
  created_at : ℚ
  updated_at : ℚ
deriving DecidableEq, Repr

/-- The table: its rows plus the serial id counter. -/
structure Table where
  rows : List Row
  nextId : Nat
deriving DecidableEq, Repr

/-- Does a row carry the given (city, observation_time) natural key? -/
def sameKey (row : Row) (city : Json) (time : ℚ) : Bool :=
  decide (row.city = city) && decide (row.observation_time = time)

/-- The `DO UPDATE SET` part of the upsert statement (fetch_and_load_weather.py
lines 129-135): every mutable column overwritten from the excluded record,
`updated_at` refreshed (equally by the trigger of db.py lines 162-180); the
key columns and `created_at` keep their values. -/
def applyUpdate (now : ℚ) (r : ObservationRecord) (row : Row) : Row :=
  { row with
    country := r.country, latitude := r.latitude, longitude := r.longitude,
    weather_data := r.weather_data, air_quality_data := r.air_quality_data,
    updated_at := now }

/-- The freshly inserted row of the upsert's no-conflict path: server-assigned
id and audit timestamps. -/
def freshRow (now : ℚ) (nextId : Nat) (r : ObservationRecord) : Row :=
  { id := nextId, city := r.city, country := r.country, latitude := r.latitude,
    longitude := r.longitude, observation_time := r.observation_time,
    weather_data := r.weather_data, air_quality_data := r.air_quality_data,
    created_at := now, updated_at := now }

/-- One execution of the `INSERT … ON CONFLICT (city, observation_time) DO
UPDATE` statement (fetch_and_load_weather.py lines 123-136) under
PostgreSQL's upsert semantics, granted a unique arbiter index on the conflict
target: on a key conflict every mutable column is overwritten and
`updated_at` refreshed; otherwise a fresh row is appended.  `now` models the
server's `CURRENT_TIMESTAMP`. -/
def upsertOne (now : ℚ) (t : Table) (r : ObservationRecord) : Table :=
  if t.rows.any (fun row => sameKey row r.city r.observation_time) then
    { t with rows := t.rows.map (fun row =>
        if sameKey row r.city r.observation_time then applyUpdate now r row else row) }
  else
    { rows := t.rows ++ [freshRow now t.nextId r], nextId := t.nextId + 1 }

/-- The indexes `init_db` declares on `raw.weather_observations`
(src/db.py lines 136-159), as (column list, is-unique) pairs: the SERIAL
primary key, and three plain `CREATE INDEX` indexes — none of them UNIQUE. -/
def initDbIndexes : List (List String × Bool) :=
  [ (["id"], true),
    (["city", "observation_time"], false),
    (["observation_time"], false),
    (["created_at"], false) ]

/-- PostgreSQL accepts `ON CONFLICT (cols) DO UPDATE` only when a UNIQUE
index (or constraint) covers exactly the conflict-target columns; otherwise
every execution of the statement fails with error 42P10. -/
def hasUniqueArbiter (indexes : List (List String × Bool)) (target : List String) : Bool :=
  indexes.any (fun ix => ix.2 && ix.1 == target)

/-- `WeatherETL.load_observations_to_db` (lines 109-149): an empty batch
short-circuits (lines 119-121); otherwise `executemany` runs the upsert
statement once per record, in order, in one transaction — provided the
schema supplies the unique arbiter the statement's `ON CONFLICT (city,
observation_time)` requires; without one the database rejects the statement
and the raised failure propagates (line 149). -/
def load_observations_to_db (indexes : List (List String × Bool)) (now : ℚ)
    (t : Table) (observations : List ObservationRecord) : Except String Table :=
  if observations.isEmpty then .ok t
  else if hasUniqueArbiter indexes ["city", "observation_time"] then
    .ok (observations.foldl (upsertOne now) t)
  else
    .error "there is no unique or exclusion constraint matching the ON CONFLICT specification"

/-- At most one row per (city, observation_time) natural key. -/
def keyUnique (t : Table) : Prop :=
  t.rows.Pairwise (fun a b =>
    ¬ (a.city = b.city ∧ a.observation_time = b.observation_time))

/-! ## Quality & Trend Analyzer: `src/etl/transform_to_analytics.py` -/

/-- A stored observation row as `validate_weather_data` receives it, with the
two payload columns already parsed: `json.loads` succeeds on everything the
pipeline itself writes, so the `JSONDecodeError` branch at lines 89-91 is not
reachable in this model.  `air_quality_data` is `none` when the column is
NULL (the source then substitutes `{}`, line 49). -/
structure StoredRecord where
  id : Option Int
  city : Option String
  weather_data : Json
  air_quality_data : Option Json
deriving DecidableEq, Repr

/-- The `validation_results` dict built by `validate_weather_data`. -/
structure ValidationResult where
  record_id : Option Int
  city : Option String
  is_valid : Bool
  issues : List String
  cleaned_weather_data : Option Json
  cleaned_aqi_data : Option Json
deriving DecidableEq, Repr

/-- Issue list and validity flag accumulated inside the `try:` of
`validate_weather_data`.  An exception must keep the issues recorded before
the raise, so the error value of each step carries the accumulator. -/
structure VAcc where
  issues : List String
  is_valid : Bool
deriving DecidableEq, Repr

/-- The required-field loop (lines 57-61): a missing field appends an issue
and invalidates. -/
def requiredFieldIssues (wd : Json) : List String → VAcc → Except (VAcc × String) VAcc
  | [], acc => .ok acc
  | f :: fs, acc =>
    match Json.pyContains f wd with
    | .error m => .error (acc, m)
    | .ok true => requiredFieldIssues wd fs acc
    | .ok false =>
      requiredFieldIssues wd fs ⟨acc.issues ++ ["Missing weather field: " ++ f], acc.is_valid && false⟩

/-- One range check (lines 65-74): a present, numeric, out-of-range value
appends an issue; `is_valid` is deliberately left unchanged, exactly as the
source does; a present non-numeric value raises. -/
def rangeIssue (label unit : String) (lo hi : ℚ) (v : Json) (acc : VAcc) :
    Except (VAcc × String) VAcc :=
  if v = Json.null then .ok acc
  else
    match v.asNum with
    | .error m => .error (acc, m)
    | .ok q =>
      if q < lo ∨ hi < q then
        .ok ⟨acc.issues ++ [label ++ ": " ++ v.pyStr ++ unit], acc.is_valid⟩
      else .ok acc

/-- The weather-payload checks (lines 52-74): error envelope, required
fields, temperature and humidity ranges. -/
def checkWeather (wd : Json) (acc : VAcc) : Except (VAcc × String) VAcc :=
  match Json.pyContains "error" wd with
  | .error m => .error (acc, m)
  | .ok true =>
    match wd.pySubscript "error" with
    | .error m => .error (acc, m)
    | .ok ev => .ok ⟨acc.issues ++ ["Weather API error: " ++ ev.pyStr], false⟩
  | .ok false => do
    let acc ← requiredFieldIssues wd ["main", "weather", "coord"] acc
    let mainData ← (wd.pyGetD "main" (.obj [])).mapError (Prod.mk acc)
    let temp ← (mainData.pyGetOpt "temp").mapError (Prod.mk acc)
    let acc ← rangeIssue "Temperature out of range" "°C" (-100) 70 temp acc
    let hum ← (mainData.pyGetOpt "humidity").mapError (Prod.mk acc)
    rangeIssue "Humidity out of range" "%" 0 100 hum acc

/-- The per-observation AQI range loop (lines 80-83): like the other range
checks it appends an issue without invalidating. -/
def aqiObsIssues : List Json → VAcc → Except (VAcc × String) VAcc
  | [], acc => .ok acc
  | obs :: rest, acc =>
    match obs with
    | .obj _ =>
      let v := (obs.lookup "AQI").getD .null
      if v = Json.null then aqiObsIssues rest acc
      else
        match v.asNum with
        | .error m => .error (acc, m)
        | .ok q =>
          if q < 0 ∨ 500 < q then
            aqiObsIssues rest ⟨acc.issues ++ ["AQI out of range: " ++ v.pyStr], acc.is_valid⟩
          else aqiObsIssues rest acc
    | _ => .error (acc, "AttributeError: get")

/-- The air-quality checks (lines 76-83). -/
def checkAqi (aqiData : Json) (acc : VAcc) : Except (VAcc × String) VAcc :=
  if aqiData.truthy then
    match Json.pyContains "error" aqiData with
    | .error m => .error (acc, m)
    | .ok true => .ok acc
    | .ok false =>
      match aqiData.pyGetD "observations" (.arr []) with
      | .error m => .error (acc, m)
      | .ok obsv =>
        if obsv.truthy then
          match obsv with
          | .arr xs => aqiObsIssues xs acc
          | _ => .error (acc, "TypeError: not iterable")
        else .ok acc
  else .ok acc

/-- `if field in d and d[field] is not None: d[field] = round(d[field], nd)`,
the rounding pattern of `_clean_weather_data`/`_clean_aqi_data`. -/
def roundField (m : Json) (field : String) (nd : Option Nat) : Except String Json := do
  let present ← Json.pyContains field m
  if present then
    let v ← m.pySubscript field
    if v = Json.null then pure m
    else do
      let q ← v.asNum
      match m with
      | .obj _ =>
        pure (m.setKey field (.num (match nd with
          | some d => pyRound q d
          | none => pyRoundInt q)))
      | _ => throw "TypeError: no item assignment"
  else pure m

/-- Write a key only when it already exists: the source mutates the nested
dict obtained by `cleaned.get(k, {})` in place, so a missing section leaves
the payload untouched. -/
def setIfPresent (j : Json) (k : String) (v : Json) : Json :=
  if j.hasKey k then j.setKey k v else j

/-- `WeatherDataTransformer._clean_weather_data` (lines 98-122). -/
def cleanWeather (wd : Json) : Except String Json :=
  match Json.pyContains "error" wd with
  | .error m => .error m
  | .ok true => .ok wd
  | .ok false => do
    let mainData ← wd.pyGetD "main" (.obj [])
    let mainData ← roundField mainData "temp" (some 1)
    let mainData ← roundField mainData "feels_like" (some 1)
    let mainData ← roundField mainData "temp_min" (some 1)
    let mainData ← roundField mainData "temp_max" (some 1)
    let mainData ← roundField mainData "pressure" none
    let wind ← wd.pyGetD "wind" (.obj [])
    let wind ← roundField wind "speed" (some 1)
    let wind ← roundField wind "deg" none
    pure (setIfPresent (setIfPresent wd "main" mainData) "wind" wind)

/-- The observation-cleaning loop of `_clean_aqi_data` (lines 135-146):
`obs.copy()` raises on scalars; `AQI` and `Value` are rounded when present
and non-null. -/
def cleanAqiObs : List Json → Except String (List Json)
  | [] => .ok []
  | obs :: rest => do
    match obs with
    | .obj _ | .arr _ => do
      let o ← roundField obs "AQI" none
      let o ← roundField o "Value" (some 3)
      let tail ← cleanAqiObs rest
      pure (o :: tail)
    | _ => throw "AttributeError: copy"

/-- `WeatherDataTransformer._clean_aqi_data` (lines 124-149).  When reached
with a truthy, error-free dict it always (re)writes the `observations` key,
even one that was absent (line 148). -/
def cleanAqi (aqiData : Json) : Except String Json := do
  let hasErr ← Json.pyContains "error" aqiData
  if hasErr || !aqiData.truthy then pure aqiData
  else do
    let obsv ← aqiData.pyGetD "observations" (.arr [])
    match obsv with
    | .arr xs => do
      let ys ← cleanAqiObs xs
      pure (aqiData.setKey "observations" (.arr ys))
    | .str s =>
      if s.isEmpty then pure (aqiData.setKey "observations" (.arr []))
      else throw "AttributeError: copy"
    | .obj fs =>
      if fs.isEmpty then pure (aqiData.setKey "observations" (.arr []))
      else throw "AttributeError: copy"
    | _ => throw "TypeError: not iterable"

/-- `WeatherDataTransformer.validate_weather_data` (transform_to_analytics.py
lines 27-96).  The range checks append issues WITHOUT invalidating (lines
66-74, 80-83), exactly as the source does; an exception inside the `try:`
keeps the issues accumulated before the raise, appends `"Validation error:
…"`, and invalidates (lines 92-94); the cleaned payloads keep whatever was
assigned before a raise (lines 86-87). -/
def validate_weather_data (record : StoredRecord) : ValidationResult :=
  let wd := record.weather_data
  let aqiData := record.air_quality_data.getD (Json.obj [])
  let finish := fun (acc : VAcc) (cw ca : Option Json) =>
    ({ record_id := record.id, city := record.city, is_valid := acc.is_valid,
       issues := acc.issues, cleaned_weather_data := cw,
       cleaned_aqi_data := ca } : ValidationResult)
  let failWith := fun (acc : VAcc) (msg : String) (cw ca : Option Json) =>
    finish ⟨acc.issues ++ ["Validation error: " ++ msg], false⟩ cw ca
  match checkWeather wd ⟨[], true⟩ with
  | .error (acc, m) => failWith acc m none none
  | .ok acc1 =>
    match checkAqi aqiData acc1 with
    | .error (acc2, m) => failWith acc2 m none none
    | .ok acc2 =>
      match cleanWeather wd with
      | .error m => failWith acc2 m none none
      | .ok cw =>
        match cleanAqi aqiData with
        | .error m => failWith acc2 m (some cw) none
        | .ok ca => finish acc2 (some cw) (some ca)

/-- `statistics.mean` on rationals. -/
def listMean (vs : List ℚ) : ℚ := vs.sum / vs.length

/-- Insertion step of an ascending insertion sort. -/
def insertSorted (x : ℚ) : List ℚ → List ℚ
  | [] => [x]
  | y :: ys => if x ≤ y then x :: y :: ys else y :: insertSorted x ys

/-- Ascending sort, for `statistics.median`. -/
def sortAsc (vs : List ℚ) : List ℚ := vs.foldr insertSorted []

/-- `statistics.median`: middle element of the sorted list, or the mean of the
two middle elements for even length (callers guard against `[]`). -/
def listMedian (vs : List ℚ) : ℚ :=
  let s := sortAsc vs
  let n := vs.length
  if n % 2 = 1 then s.getD (n / 2) 0
  else (s.getD (n / 2 - 1) 0 + s.getD (n / 2) 0) / 2

/-- The square of `statistics.stdev` (sample standard deviation), 0 when
fewer than two points — `std_dev` of `_calculate_trend` line 240.  The
standard deviation itself is irrational in general, so the embedding carries
its square; `exceedsByHalfStd_iff` below proves the direction test on squares
equivalent to the source's comparison against `std_dev * 0.5`. -/
def sampleVarOf (vs : List ℚ) : ℚ :=
  if 1 < vs.length then
    (vs.map (fun x => (x - listMean vs) ^ 2)).sum / ((vs.length : ℚ) - 1)
  else 0

/-- `a > b + sqrt v * 0.5`, decided on squares (`v` the sample variance). -/
def exceedsByHalfStd (a b v : ℚ) : Bool :=
  decide (b < a) && decide (v < 4 * (a - b) ^ 2)

/-- The trend-statistics dict of `_calculate_trend`; `minVal`/`maxVal` are the
source's `min`/`max` keys and `stdDevSq` carries the square of its (rounded
in the source, unrounded here) `std_dev` value. -/
structure TrendStats where
  count : Nat
  average : ℚ
  median : ℚ
  minVal : ℚ
  maxVal : ℚ
  stdDevSq : ℚ
  trend_direction : String
  trend_magnitude : ℚ
deriving DecidableEq, Repr

/-- `first_half_avg` (line 244): the overall mean when the floor midpoint is
0, i.e. on a singleton series. -/
def firstHalfAvg (vs : List ℚ) : ℚ :=
  let mid := vs.length / 2
  if 0 < mid then listMean (vs.take mid) else listMean vs

/-- `second_half_avg` (line 245); for a nonempty series the midpoint is
always below the length, so the fallback is dead there. -/
def secondHalfAvg (vs : List ℚ) : ℚ :=
  let mid := vs.length / 2
  if mid < vs.length then listMean (vs.drop mid) else listMean vs

/-- `WeatherDataTransformer._calculate_trend` (lines 225-267).  The reported
statistics are rounded with Python's `round(·, 2)`; the direction test uses
the unrounded values (lines 250-253).  Nothing in the `try:` raises on
rational inputs, so the handler at lines 266-267 is dead in this model. -/
def calculate_trend (values : List ℚ) : Except String TrendStats :=
  if values.isEmpty then .error "No values provided"
  else
    let firstHalf := firstHalfAvg values
    let secondHalf := secondHalfAvg values
    let var := sampleVarOf values
    let dir :=
      if exceedsByHalfStd secondHalf firstHalf var then "increasing"
      else if exceedsByHalfStd firstHalf secondHalf var then "decreasing"
      else "stable"
    .ok { count := values.length,
          average := pyRound (listMean values) 2,
          median := pyRound (listMedian values) 2,
          minVal := pyRound (values.foldl min (values.headD 0)) 2,
          maxVal := pyRound (values.foldl max (values.headD 0)) 2,
          stdDevSq := var,
          trend_direction := dir,
          trend_magnitude := pyRound |secondHalf - firstHalf| 2 }

/-- The quality report of `run_data_quality_check`; `issue_categories` is a
dict from leading issue label to count, in first-seen order. -/
structure QualityReport where
  total_records_checked : Nat
  valid_records : Nat
  invalid_records : Nat
  data_quality_score : ℚ
  issue_categories : List (String × Nat)
deriving DecidableEq, Repr

/-- The category of an issue: the text before the first `:`
(`issue.split(':')[0]`), or `"Other"` when there is no colon (lines
307-308). -/
def issueCategory (s : String) : String :=
  match splitHead ':' s.toList with
  | some cs => String.mk cs
  | none => "Other"

/-- Tally occurrences per category into an insertion-ordered dict (lines
306-309). -/
def tallyCategories (issues : List String) : List (String × Nat) :=
  issues.foldl (fun d s =>
    let c := issueCategory s
    if d.any (·.1 == c) then d.map (fun p => if p.1 == c then (p.1, p.2 + 1) else p)
    else d ++ [(c, 1)]) []

/-- `WeatherDataTransformer.run_data_quality_check` (lines 269-322) applied
to the recent records its `SELECT` returned (the database read is the
environment).  Issues are aggregated only from records whose `is_valid` flag
is false (lines 300-303). -/
def run_data_quality_check (records : List StoredRecord) : QualityReport :=
  let validations := records.map validate_weather_data
  let total := records.length
  let valid := (validations.filter (·.is_valid)).length
  let allIssues := (validations.filter (fun v => !v.is_valid)).flatMap (·.issues)
  { total_records_checked := total,
    valid_records := valid,
    invalid_records := total - valid,
    data_quality_score :=
      if 0 < total then pyRound ((valid : ℚ) / (total : ℚ) * 100) 2 else 0,
    issue_categories := tallyCategories allIssues }

/-- The truthy `obs.get('AQI')` values kept by the comprehension at line 201
(`if obs.get('AQI')` drops both missing and zero-valued AQI). -/
def truthyAqiValues : List Json → Except String (List Json)
  | [] => .ok []
  | obs :: rest => do
    let v ← obs.pyGetOpt "AQI"
    let tail ← truthyAqiValues rest
    pure (if v.truthy then v :: tail else tail)

/-- Python `max` over the kept AQI values; the pipeline's AQI values are
numbers, and a non-numeric element raises. -/
def maxAqi : List Json → Except String ℚ
  | [] => .error "ValueError: max of empty sequence"
  | v :: rest => do
    let q ← v.asNum
    match rest with
    | [] => pure q
    | _ :: _ => do
      let m ← maxAqi rest
      pure (max q m)

/-- The per-record AQI contribution of `calculate_weather_trends` (lines
199-203): at most one value — the max over the record's truthy `AQI`
values — and nothing when no truthy value exists (in particular for a
present-but-empty observation list).  An exception here aborts the whole
trends computation: the `except` at line 205 catches only
`JSONDecodeError`. -/
def aqiContribution (aqiData : Json) : Except String (Option ℚ) := do
  let hasObs ←
    if aqiData.truthy then Json.pyContains "observations" aqiData
    else pure false
  if hasObs then
    let obsv ← aqiData.pySubscript "observations"
    match obsv with
    | .arr xs => do
      let vals ← truthyAqiValues xs
      if vals.isEmpty then pure none
      else do
        let m ← maxAqi vals
        pure (some m)
    | .str s =>
      if s.isEmpty then pure none else throw "AttributeError: get"
    | .obj fs =>
      if fs.isEmpty then pure none else throw "AttributeError: get"
    | _ => throw "TypeError: not iterable"
  else pure none

/-- The AQI-series accumulation of `calculate_weather_trends` (lines
184-206) over the city's rows in observation-time order; each element is the
row's parsed `air_quality_data` (`{}` for a NULL column, line 187). -/
def aqiSeries : List Json → Except String (List ℚ)
  | [] => .ok []
  | aq :: rest => do
    let c ← aqiContribution aq
    let tail ← aqiSeries rest
    pure (match c with | some m => m :: tail | none => tail)

/-! ## Concrete fixtures used by the theorems below -/

/-- A well-formed weather payload with humidity 150 and everything else in
range. -/
def wdHum150 : Json :=
  .obj [("main", .obj [("temp", .num 20), ("humidity", .num 150)]),
        ("weather", .arr [.obj [("main", .str "Clear")]]),
        ("coord", .obj [("lat", .num 1), ("lon", .num 2)])]

/-- The same payload with humidity 45 (all fields in range). -/
def wdHum45 : Json :=
  .obj [("main", .obj [("temp", .num 20), ("humidity", .num 45)]),
        ("weather", .arr [.obj [("main", .str "Clear")]]),
        ("coord", .obj [("lat", .num 1), ("lon", .num 2)])]

/-- Stored record with humidity 150. -/
def recHum150 : StoredRecord := ⟨some 1, some "Chicago", wdHum150, none⟩

/-- Stored record with humidity 45, all fields in range. -/
def recHum45 : StoredRecord := ⟨some 2, some "Chicago", wdHum45, none⟩

/-- A stored record whose weather payload is an error envelope (invalid). -/
def recWeatherErr : StoredRecord :=
  ⟨some 3, some "Oslo", .obj [("error", .str "boom")], none⟩

/-- An air-quality payload with a single parameter observation whose AQI is
0. -/
def aqiZeroPayload : Json := .obj [("observations", .arr [.obj [("AQI", .num 0)]])]

/-- A prepared observation record for the persistence theorems. -/
def sampleRec : ObservationRecord :=
  { city := .str "Chicago", country := .str "US", latitude := .num 41,
    longitude := .num (-87), observation_time := 1700000000,
    weather_data := .obj [("main", .obj [("temp", .num 20)])],
    air_quality_data := none }

/-- A second payload for the same (city, observation_time) natural key. -/
def sampleRec2 : ObservationRecord :=
  { sampleRec with
    country := .str "USA",
    weather_data := .obj [("main", .obj [("temp", .num 25)])],
    air_quality_data := some (.obj [("observations", .arr [])]) }

/-- A run environment whose batch write fails. -/
def envLoadFail : EtlEnv :=
  { weatherOf := fun _ => .obj [("error", .str "boom")],
    getAqi := fun _ => .obj [],
    load := fun _ => .error "db down",
    nowIso := "NOW", nowEpoch := 0, startIso := "S", endIso := "E", duration := 1 }

/-- A run environment where every weather fetch fails but the batch write
succeeds, reporting one affected row per record. -/
def envWeatherErr : EtlEnv :=
  { weatherOf := fun _ => .obj [("error", .str "boom")],
    getAqi := fun _ => .obj [],
    load := fun obs => .ok obs.length,
    nowIso := "NOW", nowEpoch := 0, startIso := "S", endIso := "E", duration := 1 }

/-! ## Claim theorems, counterexamples and witnesses -/

/-- C2: the claim says a record is valid iff it raised zero issues and that
humidity 150 yields exactly the issue category "Humidity out of range" with
the record marked invalid.  Evaluating `validate_weather_data` at that input
shows the code records exactly that one issue but leaves the record marked
VALID — the humidity range check (transform_to_analytics.py lines 71-74)
appends the issue without clearing `is_valid` — while the in-range record is
valid with zero issues as claimed.  The "valid iff zero issues" reading of
the source is the evident intent (the error, missing-field and exception
branches all clear the flag), so the range checks' silence is the slip. -/
theorem C2_humidity_validation :
    (validate_weather_data recHum150).issues = ["Humidity out of range: 150%"] ∧
    issueCategory "Humidity out of range: 150%" = "Humidity out of range" ∧
    (validate_weather_data recHum150).is_valid = true ∧
    (validate_weather_data recHum45).is_valid = true ∧
    (validate_weather_data recHum45).issues = [] := by decide

/-- C3 counterexample: three consecutive timeouts — a retryable failure on
every one of the 3 attempts — terminate with the final timeout's own message
after exactly 3 attempts (weather_client.py lines 54-57), not with a "max
retries exceeded" error, refuting the claim as stated. -/
theorem C3_timeout_counterexample :
    make_request (fun _ => Outcome.timeout "Request timed out") 3
      = (.error "Request timed out", 3) ∧
    "Request timed out" ≠ "Max retries exceeded" := by decide

/-- C4 counterexample: a metric-extraction failure (here a present-but-empty
`weather` list) is caught (weather_client.py lines 290-292), but the returned
envelope carries only the cause — no query echo, no capture timestamp —
refuting the claim that every ordinary failure yields an envelope with all
three fields. -/
theorem C4_extract_counterexample :
    extract_key_metrics (fun _ => "1970-01-01T00:00:00") (.obj [("weather", .arr [])])
      = .obj [("error", .str "Failed to parse weather data: list index out of range")] ∧
    (extract_key_metrics (fun _ => "1970-01-01T00:00:00")
        (.obj [("weather", .arr [])])).lookup "query" = none ∧
    (extract_key_metrics (fun _ => "1970-01-01T00:00:00")
        (.obj [("weather", .arr [])])).lookup "api_timestamp" = none := by decide

/-- C5 counterexample: a run aborted by a failing batch write returns the
error summary of fetch_and_load_weather.py lines 208-214, which records the
status, cause, and start/end/duration but none of the per-source counts —
refuting the claim that the counts are reported even when the status is
`error`. -/
theorem C5_error_summary_counterexample :
    (run_etl envLoadFail ["Chicago"]).status = "error" ∧
    (run_etl envLoadFail ["Chicago"]).error = some "db down" ∧
    (run_etl envLoadFail ["Chicago"]).weather_successes = none ∧
    (run_etl envLoadFail ["Chicago"]).weather_errors = none ∧
    (run_etl envLoadFail ["Chicago"]).aqi_successes = none ∧
    (run_etl envLoadFail ["Chicago"]).aqi_errors = none ∧
    (run_etl envLoadFail ["Chicago"]).cities_processed = none := by decide

set_option maxRecDepth 4000 in
/-- C7 counterexample: the reported trend magnitude is `round(·, 2)` of the
absolute difference of the two half-means (transform_to_analytics.py line
263), not that difference itself: on the series [0, 1/3] the half-means are
0 and 1/3 but the reported magnitude is 0.33. -/
theorem C7_magnitude_counterexample :
    (calculate_trend [0, 1/3]).map (·.trend_magnitude) = .ok (33/100) ∧
    |secondHalfAvg [0, 1/3] - firstHalfAvg [0, 1/3]| = 1/3 ∧
    (33 : ℚ)/100 ≠ 1/3 := by
  refine ⟨?_, ?_, by norm_num⟩
  · norm_num [calculate_trend, secondHalfAvg, firstHalfAvg, listMean, pyRound,
      roundHalfEven, Except.map]
    have h0 : |(1 : ℚ)/3| = 1/3 := by norm_num
    have h1 : |(1 : ℚ)/3| * 100 = 100/3 := by rw [h0]; norm_num
    rw [h1]
    have h2 : Int.fract ((100 : ℚ)/3) = 1/3 := by norm_num [Int.fract]
    have h3 : ⌊(100 : ℚ)/3⌋ = 33 := by norm_num
    rw [h2, h3]
    norm_num
  · norm_num [secondHalfAvg, firstHalfAvg, listMean]

/-- C8 counterexample: the quality score is `round(valid/total × 100, 2)`
(transform_to_analytics.py line 315), not `valid/total × 100` exactly: 1
valid record out of 3 scores 33.33, not 100/3. -/
theorem C8_score_counterexample :
    (run_data_quality_check [recHum45, recWeatherErr, recWeatherErr]).total_records_checked = 3 ∧
    (run_data_quality_check [recHum45, recWeatherErr, recWeatherErr]).valid_records = 1 ∧
    (run_data_quality_check [recHum45, recWeatherErr, recWeatherErr]).data_quality_score = 3333/100 ∧
    (3333 : ℚ)/100 ≠ (1 : ℚ)/3 * 100 := by
  refine ⟨by decide, by decide, ?_, by norm_num⟩
  have hv : (([recHum45, recWeatherErr, recWeatherErr].map validate_weather_data).filter
      (·.is_valid)).length = 1 := by decide
  simp only [run_data_quality_check, hv]
  norm_num [pyRound, roundHalfEven]

/-- C9 counterexample: the comprehension at line 201 keeps only truthy AQI
values, so a record with one parameter observation whose AQI is 0 contributes
no value to the AQI series, although the maximum AQI across its observations
is 0 — refuting the claim that the contribution is that maximum. -/
theorem C9_zero_aqi_counterexample :
    aqiContribution aqiZeroPayload = .ok none ∧
    maxAqi [.num 0] = .ok 0 ∧
    (Except.ok none : Except String (Option ℚ)) ≠ Except.ok (some 0) := by decide

/-- C10 counterexample: the per-source counts are computed over the fetch
dict, which is keyed by city, so a duplicated configured city is counted once
there but twice in `cities_processed`: on the city list ["A", "A"] the run
succeeds with cities_processed = 2 yet weather_successes + weather_errors =
0 + 1. -/
theorem C10_duplicate_city_counterexample :
    (run_etl envWeatherErr ["A", "A"]).status = "success" ∧
    (run_etl envWeatherErr ["A", "A"]).cities_processed = some 2 ∧
    (run_etl envWeatherErr ["A", "A"]).weather_successes = some 0 ∧
    (run_etl envWeatherErr ["A", "A"]).weather_errors = some 1 ∧
    0 + 1 ≠ 2 := by decide

/-- A retryable outcome on a non-final attempt makes the retry loop proceed
to the next attempt. -/
lemma makeRequestFrom_step (env : Nat → Outcome) (a r : Nat)
    (h : retryableOutcome (env a)) (hr : r ≠ 0) :
    makeRequestFrom env a (r + 1) = makeRequestFrom env (a + 1) r := by
  cases henv : env a with
  | status code body =>
    rw [henv] at h
    simp only [retryableOutcome] at h
    have h401 : ¬ code = 401 := by rcases h with h | ⟨h1, h2⟩ <;> omega
    have h404 : ¬ code = 404 := by rcases h with h | ⟨h1, h2⟩ <;> omega
    by_cases h429 : code = 429
    · simp [makeRequestFrom, henv, h429]
    · have hr5 : 400 ≤ code ∧ code < 600 := by
        rcases h with h | ⟨h1, h2⟩
        · exact absurd h h429
        · exact ⟨by omega, h2⟩
      simp [makeRequestFrom, henv, h401, h404, h429, hr5, hr]
  | timeout msg => simp [makeRequestFrom, henv, hr]
  | reqErr msg => simp [makeRequestFrom, henv, hr]

/-- C3 (amended): exhausting the 3-attempt budget on retryable failures
performs exactly 3 attempts and returns a terminal error, but the message
"Max retries exceeded" appears precisely when the final attempt hit the rate
limit (the loop then falls off into line 63 of weather_client.py); a timeout
on the final attempt re-raises the timeout's own message (lines 54-57), and a
5xx on the final attempt re-raises the HTTP error's message (lines 58-61). -/
theorem C3_retry_exhaustion (env : Nat → Outcome)
    (h0 : retryableOutcome (env 0)) (h1 : retryableOutcome (env 1))
    (h2 : retryableOutcome (env 2)) :
    (∃ msg, make_request env 3 = (.error msg, 3)) ∧
    (∀ b, env 2 = .status 429 b → make_request env 3 = (.error "Max retries exceeded", 3)) ∧
    (∀ m, env 2 = .timeout m → make_request env 3 = (.error m, 3)) ∧
    (∀ c b, env 2 = .status c b → 500 ≤ c → c < 600 →
      make_request env 3 = (.error (httpErrorMsg c), 3)) := by
  have e1 : make_request env 3 = makeRequestFrom env 2 1 := by
    unfold make_request
    rw [show (3 : Nat) = 2 + 1 from rfl, makeRequestFrom_step env 0 2 h0 (by omega)]
    rw [show (2 : Nat) = 1 + 1 from rfl, makeRequestFrom_step env 1 1 h1 (by omega)]
  refine ⟨?_, ?_, ?_, ?_⟩
  · rw [e1]
    cases henv : env 2 with
    | status code body =>
      rw [henv] at h2
      simp only [retryableOutcome] at h2
      by_cases h429 : code = 429
      · exact ⟨"Max retries exceeded", by simp [makeRequestFrom, henv, h429]⟩
      · have hr5 : 500 ≤ code ∧ code < 600 := by
          rcases h2 with h | h
          · exact absurd h h429
          · exact h
        have h401 : ¬ code = 401 := by omega
        have h404 : ¬ code = 404 := by omega
        exact ⟨httpErrorMsg code,
          by simp [makeRequestFrom, henv, h401, h404, h429,
                   show 400 ≤ code ∧ code < 600 from ⟨by omega, hr5.2⟩]⟩
    | timeout m => exact ⟨m, by simp [makeRequestFrom, henv]⟩
    | reqErr m => exact ⟨m, by simp [makeRequestFrom, henv]⟩
  · intro b hb
    rw [e1]
    simp [makeRequestFrom, hb]
  · intro m hm
    rw [e1]
    simp [makeRequestFrom, hm]
  · intro c b hcb h5 h6
    rw [e1]
    have h401 : ¬ c = 401 := by omega
    have h404 : ¬ c = 404 := by omega
    have h429 : ¬ c = 429 := by omega
    simp [makeRequestFrom, hcb, h401, h404, h429,
          show 400 ≤ c ∧ c < 600 from ⟨by omega, h6⟩]

/-- C3 witness: the amended theorem at three consecutive rate-limit
responses, whose terminal error is "Max retries exceeded" after exactly 3
attempts. -/
theorem C3_retry_exhaustion_witness :
    make_request (fun _ => Outcome.status 429 Json.null) 3
      = (.error "Max retries exceeded", 3) :=
  (C3_retry_exhaustion (fun _ => Outcome.status 429 Json.null)
    (Or.inl rfl) (Or.inl rfl) (Or.inl rfl)).2.1 Json.null rfl

/-- C4 (amended): the fetch path never raises, and every failure there —
whether in the HTTP layer or in the `cod` check — becomes the typed envelope
carrying the cause, the capture timestamp and the query echo; a
metric-extraction failure is also caught, but its envelope carries the cause
only, with no query echo and no capture timestamp. -/
theorem C4_error_envelopes :
    (∀ (env : Nat → Outcome) (city : String) (country : Option String) (now e : String),
      (make_request env 3).1 = .error e →
      get_current_weather_by_city env city country now
        = errorEnvelope e now (weatherQuery city country)) ∧
    (∀ (env : Nat → Outcome) (city : String) (country : Option String)
        (now e : String) (data : Json),
      (make_request env 3).1 = .ok data →
      weatherSuccessBody data (weatherQuery city country) now = .error e →
      get_current_weather_by_city env city country now
        = errorEnvelope e now (weatherQuery city country)) ∧
    (∀ cause now query : String,
      (errorEnvelope cause now query).lookup "error" = some (.str cause) ∧
      (errorEnvelope cause now query).lookup "api_timestamp" = some (.str now) ∧
      (errorEnvelope cause now query).lookup "query" = some (.str query)) ∧
    (∀ (iso : ℚ → String) (wd : Json) (m : String),
      wd.hasKey "error" = false →
      extractMetricsCore iso wd = .error m →
      extract_key_metrics iso wd
        = .obj [("error", .str ("Failed to parse weather data: " ++ m))] ∧
      (extract_key_metrics iso wd).lookup "query" = none ∧
      (extract_key_metrics iso wd).lookup "api_timestamp" = none) := by
  refine ⟨?_, ?_, ?_, ?_⟩
  · intro env city country now e h
    simp [get_current_weather_by_city, h, Except.bind, bind]
  · intro env city country now e data hok herr
    simp [get_current_weather_by_city, hok, herr, Except.bind, bind]
  · intro cause now query
    exact ⟨rfl, rfl, rfl⟩
  · intro iso wd m hk herr
    refine ⟨?_, ?_, ?_⟩ <;> simp [extract_key_metrics, hk, herr, Json.lookup]

/-- C4 witness: the amended theorem at a timed-out fetch (full envelope) and
at a payload with an empty `weather` list (cause-only envelope). -/
theorem C4_error_envelopes_witness :
    get_current_weather_by_city (fun _ => Outcome.timeout "Request timed out")
        "Chicago" (some "US") "NOW"
      = errorEnvelope "Request timed out" "NOW" "Chicago,US" ∧
    extract_key_metrics (fun _ => "iso") (.obj [("weather", .arr [])])
      = .obj [("error", .str "Failed to parse weather data: list index out of range")] := by
  constructor
  · exact C4_error_envelopes.1 (fun _ => Outcome.timeout "Request timed out")
      "Chicago" (some "US") "NOW" "Request timed out" (by decide)
  · exact (C4_error_envelopes.2.2.2 (fun _ => "iso") (.obj [("weather", .arr [])])
      "list index out of range" (by decide) (by decide)).1

/-- C5 (amended): every run summary records the start time, end time and
elapsed duration; the per-source success/failure counts are present exactly
when the run succeeded, while an aborted run's summary carries status
`error` and the causing message but none of the counts. -/
theorem C5_summary_fields (env : EtlEnv) (cities : List String) :
    (run_etl env cities).start_time = env.startIso ∧
    (run_etl env cities).end_time = env.endIso ∧
    (run_etl env cities).duration_seconds = env.duration ∧
    ((run_etl env cities).status = "success" ∨ (run_etl env cities).status = "error") ∧
    ((run_etl env cities).status = "success" ↔ (run_etl env cities).weather_successes.isSome) ∧
    ((run_etl env cities).status = "error" ↔ (run_etl env cities).error.isSome) ∧
    ((run_etl env cities).status = "error" →
      (run_etl env cities).weather_successes = none ∧
      (run_etl env cities).weather_errors = none ∧
      (run_etl env cities).aqi_successes = none ∧
      (run_etl env cities).aqi_errors = none ∧
      (run_etl env cities).cities_processed = none ∧
      (run_etl env cities).records_loaded = none) := by
  unfold run_etl
  cases hc : etlCore env cities with
  | ok x =>
    obtain ⟨wd, rest⟩ := x
    obtain ⟨ad, rest⟩ := rest
    obtain ⟨obs, loaded⟩ := rest
    simp
  | error e => simp

/-- C5 witness: the amended theorem at a run whose batch write fails —
status `error`, counts absent, clock fields recorded. -/
theorem C5_summary_fields_witness :
    (run_etl envLoadFail ["Oslo"]).weather_successes = none ∧
    (run_etl envLoadFail ["Oslo"]).records_loaded = none ∧
    (run_etl envLoadFail ["Oslo"]).start_time = envLoadFail.startIso := by
  refine ⟨?_, ?_, (C5_summary_fields envLoadFail ["Oslo"]).1⟩
  · exact ((C5_summary_fields envLoadFail ["Oslo"]).2.2.2.2.2.2 (by decide)).1
  · exact ((C5_summary_fields envLoadFail ["Oslo"]).2.2.2.2.2.2 (by decide)).2.2.2.2.2

/-- C6: for every city whose weather fetch failed, `fetch_air_quality_data`
synthesizes the "Weather data unavailable" error payload; the result is
independent of the air-quality client at such entries (two clients that
agree on the non-error payloads produce identical results, so the source is
never consulted for a failed city); and the prepared record stores exactly
the synthesized payload as its air-quality data. -/
theorem C6_aqi_short_circuit :
    (∀ (g₁ g₂ : Json → Json) (now : String) (wd : List (String × Json)),
      (∀ cw ∈ wd, cw.2.hasKey "error" = false → g₁ cw.2 = g₂ cw.2) →
      fetch_air_quality_data g₁ now wd = fetch_air_quality_data g₂ now wd) ∧
    (∀ (g : Json → Json) (now : String) (wd : List (String × Json)) (cw : String × Json),
      cw ∈ wd → cw.2.hasKey "error" = true →
      (cw.1, aqiUnavailable now) ∈ fetch_air_quality_data g now wd) ∧
    (∀ now : String,
      (aqiUnavailable now).lookup "error" = some (.str "Weather data unavailable")) ∧
    (∀ (nowE : ℚ) (city : String) (w : Json) (now : String),
      w.hasKey "error" = true →
      prepare_observation_record nowE city w (aqiUnavailable now)
        = .ok { city := .str (pySplitFirst ',' city), country := .null,
                latitude := .null, longitude := .null, observation_time := nowE,
                weather_data := w,
                air_quality_data := some (aqiUnavailable now) }) := by
  refine ⟨?_, ?_, fun now => rfl, ?_⟩
  · intro g₁ g₂ now wd h
    unfold fetch_air_quality_data
    apply List.map_congr_left
    intro cw hmem
    by_cases hk : cw.2.hasKey "error"
    · simp [hk]
    · simp only [Bool.not_eq_true] at hk
      simp [hk, h cw hmem hk]
  · intro g now wd cw hmem hk
    unfold fetch_air_quality_data
    exact List.mem_map.mpr ⟨cw, hmem, by simp [hk]⟩
  · intro nowE city w now hk
    simp [prepare_observation_record, hk, aqiUnavailable, Json.truthy, pure, Except.pure]

/-- C6 witness: a two-city fetch dict with one failed weather payload — the
synthesized entry appears, the result ignores the air-quality oracle, and
the prepared record carries the synthesized payload. -/
theorem C6_aqi_short_circuit_witness :
    ("Oslo", aqiUnavailable "NOW") ∈
      fetch_air_quality_data (fun _ => Json.obj []) "NOW"
        [("Oslo", Json.obj [("error", Json.str "boom")]),
         ("Bergen", Json.obj [("cod", Json.num 200)])] ∧
    prepare_observation_record 7 "Oslo" (Json.obj [("error", Json.str "boom")])
        (aqiUnavailable "NOW")
      = .ok { city := .str (pySplitFirst ',' "Oslo"), country := .null,
              latitude := .null, longitude := .null, observation_time := 7,
              weather_data := Json.obj [("error", Json.str "boom")],
              air_quality_data := some (aqiUnavailable "NOW") } := by
  constructor
  · exact C6_aqi_short_circuit.2.1 (fun _ => Json.obj []) "NOW"
      [("Oslo", Json.obj [("error", Json.str "boom")]),
       ("Bergen", Json.obj [("cod", Json.num 200)])]
      ("Oslo", Json.obj [("error", Json.str "boom")]) (by decide) (by decide)
  · exact C6_aqi_short_circuit.2.2.2 7 "Oslo" (Json.obj [("error", Json.str "boom")])
      "NOW" (by decide)

/-- A key that looks up successfully is found by `List.any` on the keys. -/
lemma any_key_of_lookup {fs : List (String × Json)} {k : String} {v : Json}
    (h : fs.lookup k = some v) : fs.any (·.1 == k) = true := by
  induction fs with
  | nil => simp [List.lookup] at h
  | cons p ps ih =>
    obtain ⟨pk, pv⟩ := p
    rw [List.lookup] at h
    by_cases hk : k == pk
    · have hpk : pk = k := (beq_iff_eq.mp hk).symm
      simp [hpk]
    · have hkf : (k == pk) = false := by simpa using hk
      rw [hkf] at h
      simp [ih h]

/-- C9 (amended): each stored record contributes at most one value to the
AQI series; a record with a present-but-empty observation list contributes
none; and when a contribution exists it is a genuine maximum of the kept
(truthy, i.e. non-missing and non-zero) AQI values. -/
theorem C9_aqi_series_shape :
    (∀ (rows : List Json) (vals : List ℚ),
      aqiSeries rows = .ok vals → vals.length ≤ rows.length) ∧
    (∀ aqiData : Json, aqiData.lookup "observations" = some (.arr []) →
      aqiContribution aqiData = .ok none) ∧
    (∀ (vs : List Json) (m : ℚ), maxAqi vs = .ok m →
      (∃ v ∈ vs, v.asNum = .ok m) ∧ ∀ w ∈ vs, ∀ q, w.asNum = .ok q → q ≤ m) := by
  refine ⟨?_, ?_, ?_⟩
  · intro rows
    induction rows with
    | nil => intro vals h; simp [aqiSeries, pure, Except.pure] at h; simp [← h]
    | cons aq rest ih =>
      intro vals h
      rw [aqiSeries] at h
      cases hc : aqiContribution aq with
      | error e => rw [hc] at h; simp [Except.bind, bind] at h
      | ok c =>
        rw [hc] at h
        cases ht : aqiSeries rest with
        | error e => rw [ht] at h; simp [Except.bind, bind] at h
        | ok tail =>
          rw [ht] at h
          simp only [Except.bind, bind, pure, Except.pure] at h
          have htail := ih tail ht
          cases c with
          | none =>
            simp at h
            subst h
            simp [List.length_cons]
            omega
          | some m =>
            simp at h
            subst h
            simpa using Nat.succ_le_succ htail
  · intro aqiData h
    cases aqiData with
    | obj fs =>
      cases fs with
      | nil => simp [Json.lookup, List.lookup] at h
      | cons p ps =>
        have hany : ((p :: ps).any (·.1 == "observations")) = true :=
          any_key_of_lookup (by simpa [Json.lookup] using h)
        simp only [aqiContribution, Json.truthy, Json.pyContains, Json.pySubscript,
          List.isEmpty_cons, Bool.not_false, hany]
        rw [show Json.lookup (Json.obj (p :: ps)) "observations" = some (.arr []) from h]
        simp [truthyAqiValues, pure, Except.pure, Except.bind, bind]
    | null => simp [Json.lookup] at h
    | bool b => simp [Json.lookup] at h
    | num q => simp [Json.lookup] at h
    | str s => simp [Json.lookup] at h
    | arr xs => simp [Json.lookup] at h
  · intro vs
    induction vs with
    | nil => intro m h; simp [maxAqi] at h
    | cons v rest ih =>
      intro m h
      rw [maxAqi] at h
      cases hn : v.asNum with
      | error e => rw [hn] at h; simp [Except.bind, bind] at h
      | ok q =>
        rw [hn] at h
        cases rest with
        | nil =>
          simp [Except.bind, bind, pure, Except.pure] at h
          subst h
          refine ⟨⟨v, by simp, hn⟩, ?_⟩
          intro w hw q' hq'
          simp at hw
          subst hw
          rw [hn] at hq'
          have h2 : q = q' := by injection hq'
          exact le_of_eq h2.symm
        | cons r rs =>
          cases hm : maxAqi (r :: rs) with
          | error e => rw [hm] at h; simp [Except.bind, bind] at h
          | ok m' =>
            rw [hm] at h
            simp [Except.bind, bind, pure, Except.pure] at h
            subst h
            obtain ⟨⟨w, hw, hwm⟩, hbound⟩ := ih m' hm
            constructor
            · rcases le_total q m' with hle | hle
              · exact ⟨w, List.mem_cons_of_mem v hw, by rw [hwm, max_eq_right hle]⟩
              · exact ⟨v, List.mem_cons_self v (r :: rs), by rw [hn, max_eq_left hle]⟩
            · intro w' hw' q' hq'
              rcases List.mem_cons.mp hw' with rfl | hmem
              · rw [hn] at hq'
                injection hq' with hq'
                subst hq'
                exact le_max_left q m'
              · exact le_trans (hbound w' hmem q' hq') (le_max_right q m')

/-- C9 witness: the amended theorem at a two-row window (one zero-AQI record,
one empty payload) and at a mixed observation list whose maximum is 42. -/
theorem C9_aqi_series_shape_witness :
    ∃ vals, aqiSeries [aqiZeroPayload, Json.obj []] = .ok vals ∧ vals.length ≤ 2 ∧
      (∃ v ∈ [Json.num 7, Json.num 42], v.asNum = .ok (42 : ℚ)) := by
  refine ⟨[], by decide, C9_aqi_series_shape.1 [aqiZeroPayload, Json.obj []] [] (by decide), ?_⟩
  exact (C9_aqi_series_shape.2.2 [Json.num 7, Json.num 42] 42 (by decide)).1

/-- Inserting a key absent from the dict appends it. -/
lemma dictInsert_fresh (d : List (String × Json)) (k : String) (v : Json)
    (h : ∀ p ∈ d, p.1 ≠ k) : dictInsert d k v = d ++ [(k, v)] := by
  have hc : (d.any (·.1 == k)) = false := by
    rw [List.any_eq_false]
    intro p hp
    simpa using h p hp
  simp [dictInsert, hc]

/-- Folding distinct fresh cities into a dict adds one entry per city. -/
lemma weather_dict_length (f : String → Json) :
    ∀ (cities : List String) (d : List (String × Json)),
      cities.Nodup → (∀ c ∈ cities, ∀ p ∈ d, p.1 ≠ c) →
      (cities.foldl (fun acc c => dictInsert acc c (f c)) d).length
        = d.length + cities.length := by
  intro cities
  induction cities with
  | nil => intro d _ _; simp
  | cons c cs ih =>
    intro d hnd hfresh
    have hnd' := List.nodup_cons.mp hnd
    rw [List.foldl_cons, dictInsert_fresh d c (f c) (fun p hp => hfresh c (by simp) p hp),
        ih (d ++ [(c, f c)]) hnd'.2 ?fresh]
    · simp [List.length_append]
      omega
    case fresh =>
      intro c' hc' p hp
      rcases List.mem_append.mp hp with hpd | hpc
      · exact hfresh c' (List.mem_cons_of_mem c hc') p hpd
      · have hpc' : p = (c, f c) := by simpa using hpc
        subst hpc'
        intro heq
        have hcc : c = c' := heq
        exact hnd'.1 (hcc ▸ hc')

/-- The success and failure counts over a fetch dict partition its entries. -/
lemma countOk_add_countErr (d : List (String × Json)) :
    countOk d + countErr d = d.length := by
  induction d with
  | nil => rfl
  | cons p ps ih =>
    by_cases h : p.2.hasKey "error" <;>
      simp [countOk, countErr, List.filter_cons, h] at * <;> omega

/-- A successful `mapM` over `Except` yields one output per input. -/
lemma mapM_ok_length {α β : Type} (f : α → Except String β) :
    ∀ (l : List α) (res : List β), l.mapM f = .ok res → res.length = l.length := by
  intro l
  induction l with
  | nil =>
    intro res h
    simp only [List.mapM, List.mapM.loop, List.reverse_nil, pure, Except.pure] at h
    injection h with h
    rw [← h]
    rfl
  | cons a as ih =>
    intro res h
    rw [List.mapM_cons] at h
    cases hf : f a with
    | error e => rw [hf] at h; simp [Except.bind, bind] at h
    | ok b =>
      rw [hf] at h
      cases hm : as.mapM f with
      | error e => rw [hm] at h; simp [Except.bind, bind] at h
      | ok bs =>
        rw [hm] at h
        simp [Except.bind, bind, pure, Except.pure] at h
        rw [← h]
        simp [ih bs hm]

/-- C10 (amended): a successful run over pairwise-distinct configured cities
has a consistent summary — weather_successes + weather_errors =
cities_processed = number of cities, likewise the AQI counts — and the batch
handed to the upserter holds exactly one prepared record per configured
city. -/
theorem C10_success_counts (env : EtlEnv) (cities : List String)
    (hnd : cities.Nodup) (hs : (run_etl env cities).status = "success") :
    ∃ wd ad obs loaded,
      etlCore env cities = .ok (wd, ad, obs, loaded) ∧
      (run_etl env cities).cities_processed = some cities.length ∧
      (run_etl env cities).weather_successes = some (countOk wd) ∧
      (run_etl env cities).weather_errors = some (countErr wd) ∧
      (run_etl env cities).aqi_successes = some (countOk ad) ∧
      (run_etl env cities).aqi_errors = some (countErr ad) ∧
      countOk wd + countErr wd = cities.length ∧
      countOk ad + countErr ad = cities.length ∧
      obs.length = cities.length := by
  cases hobs : etlObservations env cities with
  | error e =>
    exfalso
    have hcerr : etlCore env cities = .error e := by
      unfold etlCore
      rw [hobs]
      simp only [Except.bind, bind]
    simp only [run_etl, hcerr] at hs
    exact absurd hs (by decide)
  | ok obs0 =>
    have hwl : (get_weather_for_cities env.weatherOf cities).length = cities.length := by
      have hfold := weather_dict_length env.weatherOf cities [] hnd (by simp)
      simpa [get_weather_for_cities] using hfold
    have hal : (fetch_air_quality_data env.getAqi env.nowIso
        (get_weather_for_cities env.weatherOf cities)).length = cities.length := by
      rw [fetch_air_quality_data, List.length_map, hwl]
    by_cases hE : obs0.isEmpty
    · have hc : etlCore env cities
          = .ok (get_weather_for_cities env.weatherOf cities,
                 fetch_air_quality_data env.getAqi env.nowIso
                   (get_weather_for_cities env.weatherOf cities), obs0, 0) := by
        unfold etlCore
        rw [hobs]
        simp [Except.bind, bind, hE, pure, Except.pure]
      refine ⟨_, _, obs0, 0, hc,
        by simp only [run_etl, hc],
        by simp only [run_etl, hc],
        by simp only [run_etl, hc],
        by simp only [run_etl, hc],
        by simp only [run_etl, hc],
        by rw [countOk_add_countErr, hwl],
        by rw [countOk_add_countErr, hal],
        mapM_ok_length _ cities obs0 hobs⟩
    · have hEf : obs0.isEmpty = false := by simpa using hE
      cases hload : env.load obs0 with
      | error e =>
        exfalso
        have hcerr : etlCore env cities = .error e := by
          unfold etlCore
          rw [hobs]
          simp [Except.bind, bind, hEf, hload]
        simp only [run_etl, hcerr] at hs
        exact absurd hs (by decide)
      | ok n =>
        have hc : etlCore env cities
            = .ok (get_weather_for_cities env.weatherOf cities,
                   fetch_air_quality_data env.getAqi env.nowIso
                     (get_weather_for_cities env.weatherOf cities), obs0, n) := by
          unfold etlCore
          rw [hobs]
          simp [Except.bind, bind, hEf, hload, pure, Except.pure]
        refine ⟨_, _, obs0, n, hc,
          by simp only [run_etl, hc],
          by simp only [run_etl, hc],
          by simp only [run_etl, hc],
          by simp only [run_etl, hc],
          by simp only [run_etl, hc],
          by rw [countOk_add_countErr, hwl],
          by rw [countOk_add_countErr, hal],
          mapM_ok_length _ cities obs0 hobs⟩

/-- C10 witness: the amended theorem at a successful two-city run with
distinct cities. -/
theorem C10_success_counts_witness :
    ∃ wd ad obs loaded,
      etlCore envWeatherErr ["A", "B"] = .ok (wd, ad, obs, loaded) ∧
      (run_etl envWeatherErr ["A", "B"]).cities_processed = some ["A", "B"].length ∧
      (run_etl envWeatherErr ["A", "B"]).weather_successes = some (countOk wd) ∧
      (run_etl envWeatherErr ["A", "B"]).weather_errors = some (countErr wd) ∧
      (run_etl envWeatherErr ["A", "B"]).aqi_successes = some (countOk ad) ∧
      (run_etl envWeatherErr ["A", "B"]).aqi_errors = some (countErr ad) ∧
      countOk wd + countErr wd = ["A", "B"].length ∧
      countOk ad + countErr ad = ["A", "B"].length ∧
      obs.length = ["A", "B"].length :=
  C10_success_counts envWeatherErr ["A", "B"] (by decide) (by decide)

/-- The square-based direction test equals the source's comparison against
half the (real-valued) sample standard deviation. -/
lemma exceedsByHalfStd_iff (a b v : ℚ) :
    exceedsByHalfStd a b v = true ↔
      ((b : ℚ) : ℝ) + Real.sqrt ((v : ℚ) : ℝ) * 0.5 < ((a : ℚ) : ℝ) := by
  unfold exceedsByHalfStd
  rw [Bool.and_eq_true, decide_eq_true_eq, decide_eq_true_eq]
  constructor
  · rintro ⟨hba, hv4⟩
    have hba' : ((b : ℚ) : ℝ) < ((a : ℚ) : ℝ) := by exact_mod_cast hba
    have h2ab : (0 : ℝ) < 2 * (((a : ℚ) : ℝ) - ((b : ℚ) : ℝ)) := by linarith
    have hv4' : ((v : ℚ) : ℝ) < (2 * (((a : ℚ) : ℝ) - ((b : ℚ) : ℝ))) ^ 2 := by
      have hc : ((v : ℚ) : ℝ) < 4 * (((a : ℚ) : ℝ) - ((b : ℚ) : ℝ)) ^ 2 := by
        exact_mod_cast hv4
      nlinarith
    have hs := (Real.sqrt_lt' h2ab).mpr hv4'
    linarith
  · intro hlt
    have hsq : (0 : ℝ) ≤ Real.sqrt ((v : ℚ) : ℝ) := Real.sqrt_nonneg _
    have hba' : ((b : ℚ) : ℝ) < ((a : ℚ) : ℝ) := by linarith
    have h2ab : (0 : ℝ) < 2 * (((a : ℚ) : ℝ) - ((b : ℚ) : ℝ)) := by linarith
    have hs : Real.sqrt ((v : ℚ) : ℝ) < 2 * (((a : ℚ) : ℝ) - ((b : ℚ) : ℝ)) := by linarith
    have hv4' := (Real.sqrt_lt' h2ab).mp hs
    refine ⟨by exact_mod_cast hba', ?_⟩
    have hc : ((v : ℚ) : ℝ) < 4 * (((a : ℚ) : ℝ) - ((b : ℚ) : ℝ)) ^ 2 := by nlinarith
    exact_mod_cast hc

/-- The three-way direction classification of `_calculate_trend` (lines
247-253) in terms of the real-valued half-standard-deviation test. -/
lemma trendDirection_spec (f s v : ℚ) :
    ((if exceedsByHalfStd s f v then "increasing"
      else if exceedsByHalfStd f s v then "decreasing" else "stable") = "increasing"
        ↔ ((f : ℚ) : ℝ) + Real.sqrt ((v : ℚ) : ℝ) * 0.5 < ((s : ℚ) : ℝ)) ∧
    ((if exceedsByHalfStd s f v then "increasing"
      else if exceedsByHalfStd f s v then "decreasing" else "stable") = "decreasing"
        ↔ ((s : ℚ) : ℝ) + Real.sqrt ((v : ℚ) : ℝ) * 0.5 < ((f : ℚ) : ℝ)) := by
  have hsq : (0 : ℝ) ≤ Real.sqrt ((v : ℚ) : ℝ) := Real.sqrt_nonneg _
  by_cases hI : exceedsByHalfStd s f v
  · have hiff := (exceedsByHalfStd_iff s f v).mp hI
    rw [if_pos hI]
    refine ⟨⟨fun _ => hiff, fun _ => rfl⟩, ?_⟩
    constructor
    · intro hc; exact absurd hc (by decide)
    · intro hD; exfalso; linarith
  · rw [if_neg hI]
    by_cases hD : exceedsByHalfStd f s v
    · have hiff := (exceedsByHalfStd_iff f s v).mp hD
      rw [if_pos hD]
      refine ⟨?_, ⟨fun _ => hiff, fun _ => rfl⟩⟩
      constructor
      · intro hc; exact absurd hc (by decide)
      · intro hInc; exfalso; linarith
    · rw [if_neg hD]
      constructor
      · constructor
        · intro hc; exact absurd hc (by decide)
        · intro hRHS; exact absurd ((exceedsByHalfStd_iff s f v).mpr hRHS) hI
      · constructor
        · intro hc; exact absurd hc (by decide)
        · intro hRHS; exact absurd ((exceedsByHalfStd_iff f s v).mpr hRHS) hD

/-- C7 (amended): on every nonempty series the trend computation splits at
the floor midpoint (earlier half `take`, later half `drop`, the singleton
fallback excepted), classifies the direction against half the sample
standard deviation exactly as the claim states (proved through the
square-based test's real characterisation), and reports as magnitude the
absolute difference of the two half-means ROUNDED to two decimals; on
[10, 12, 14, 20, 22, 24] the halves are [10, 12, 14] and [20, 22, 24] with
means 12 and 22, the direction is "increasing" and the magnitude exactly
10. -/
theorem C7_trend_classification (values : List ℚ) (h : values ≠ []) :
    ∃ t, calculate_trend values = .ok t ∧
      t.count = values.length ∧
      t.trend_magnitude = pyRound |secondHalfAvg values - firstHalfAvg values| 2 ∧
      (t.trend_direction = "increasing" ↔
        ((firstHalfAvg values : ℚ) : ℝ)
            + Real.sqrt ((sampleVarOf values : ℚ) : ℝ) * 0.5
          < ((secondHalfAvg values : ℚ) : ℝ)) ∧
      (t.trend_direction = "decreasing" ↔
        ((secondHalfAvg values : ℚ) : ℝ)
            + Real.sqrt ((sampleVarOf values : ℚ) : ℝ) * 0.5
          < ((firstHalfAvg values : ℚ) : ℝ)) ∧
      (0 < values.length / 2 →
        firstHalfAvg values = listMean (values.take (values.length / 2))) ∧
      secondHalfAvg values = listMean (values.drop (values.length / 2)) ∧
      (([10, 12, 14, 20, 22, 24] : List ℚ).take 3 = [10, 12, 14] ∧
       ([10, 12, 14, 20, 22, 24] : List ℚ).drop 3 = [20, 22, 24] ∧
       listMean [10, 12, 14] = 12 ∧ listMean [20, 22, 24] = 22 ∧
       (calculate_trend [10, 12, 14, 20, 22, 24]).map
         (fun t => (t.trend_direction, t.trend_magnitude)) = .ok ("increasing", 10)) := by
  have hne : ¬ (values.isEmpty = true) := by
    cases values with
    | nil => exact absurd rfl h
    | cons a l => simp
  have hlen : 0 < values.length := List.length_pos.mpr h
  unfold calculate_trend
  rw [if_neg hne]
  refine ⟨_, rfl, rfl, rfl,
    (trendDirection_spec (firstHalfAvg values) (secondHalfAvg values) (sampleVarOf values)).1,
    (trendDirection_spec (firstHalfAvg values) (secondHalfAvg values) (sampleVarOf values)).2,
    ?_, ?_, by decide, by decide, ?_, ?_, ?_⟩
  · intro hmid
    simp [firstHalfAvg, hmid]
  · have hmidlt : values.length / 2 < values.length := Nat.div_lt_self hlen (by norm_num)
    simp [secondHalfAvg, hmidlt]
  · norm_num [listMean]
  · norm_num [listMean]
  · have hf : firstHalfAvg [10, 12, 14, 20, 22, 24] = 12 := by
      norm_num [firstHalfAvg, listMean]
    have hs : secondHalfAvg [10, 12, 14, 20, 22, 24] = 22 := by
      norm_num [secondHalfAvg, listMean]
    have hv : sampleVarOf [10, 12, 14, 20, 22, 24] = 166/5 := by
      norm_num [sampleVarOf, listMean]
    have hI : exceedsByHalfStd 22 12 (166/5) = true := by
      unfold exceedsByHalfStd
      rw [Bool.and_eq_true, decide_eq_true_eq, decide_eq_true_eq]
      norm_num
    have hmag : pyRound |(22 : ℚ) - 12| 2 = 10 := by
      have habs : |(22 : ℚ) - 12| = 10 := by norm_num
      rw [habs]
      norm_num [pyRound, roundHalfEven]
    simp [calculate_trend, hf, hs, hv, hI, hmag, Except.map]

/-- C7 witness: the amended theorem applied to the claim's example series. -/
theorem C7_trend_classification_witness :
    ∃ t, calculate_trend ([10, 12, 14, 20, 22, 24] : List ℚ) = .ok t ∧
      t.trend_direction = "increasing" ∧ t.trend_magnitude = 10 := by
  obtain ⟨t, hok, -, -, -, -, -, -, ⟨-, -, -, -, hmap⟩⟩ :=
    C7_trend_classification ([10, 12, 14, 20, 22, 24] : List ℚ) (by decide)
  refine ⟨t, hok, ?_⟩
  rw [hok] at hmap
  simp only [Except.map] at hmap
  have := hmap
  injection this with h2
  exact ⟨congrArg Prod.fst h2, congrArg Prod.snd h2⟩

/-- `roundHalfEven` never rounds above an integer bound. -/
lemma roundHalfEven_le (q : ℚ) (n : ℤ) (h : q ≤ n) : roundHalfEven q ≤ n := by
  have hfl : ⌊q⌋ ≤ n := by
    have hmono := Int.floor_le_floor h
    simpa using hmono
  have hq : ((⌊q⌋ : ℤ) : ℚ) ≤ q := Int.floor_le q
  have key : q - ⌊q⌋ ≠ 0 → ⌊q⌋ + 1 ≤ n := by
    intro hfrac
    by_contra hc
    push_neg at hc
    have hn : n = ⌊q⌋ := le_antisymm (by omega) hfl
    have hqn : q ≤ ((⌊q⌋ : ℤ) : ℚ) := by
      rw [← hn]
      exact_mod_cast h
    have hqe : q = ((⌊q⌋ : ℤ) : ℚ) := le_antisymm hqn hq
    exact hfrac (sub_eq_zero.mpr hqe)
  simp only [roundHalfEven]
  split
  next => exact hfl
  next h1 =>
    split
    next h2 =>
      refine key ?_
      intro h0
      rw [h0] at h2
      norm_num at h2
    next h2 =>
      split
      next => exact hfl
      next =>
        push_neg at h1 h2
        have hfr : q - ⌊q⌋ = 1 / 2 := le_antisymm h2 h1
        refine key ?_
        rw [hfr]
        norm_num

/-- `roundHalfEven` never rounds below an integer bound. -/
lemma le_roundHalfEven (q : ℚ) (n : ℤ) (h : (n : ℚ) ≤ q) : n ≤ roundHalfEven q := by
  have hfl : n ≤ ⌊q⌋ := Int.le_floor.mpr h
  simp only [roundHalfEven]
  split
  next => exact hfl
  next =>
    split
    next => omega
    next =>
      split
      next => exact hfl
      next => omega

/-- Python's `round(·, 2)` keeps a value of [0, 100] inside [0, 100]. -/
lemma pyRound2_bounds (x : ℚ) (h0 : 0 ≤ x) (h100 : x ≤ 100) :
    0 ≤ pyRound x 2 ∧ pyRound x 2 ≤ 100 := by
  unfold pyRound
  constructor
  · apply div_nonneg _ (by norm_num)
    have hz := le_roundHalfEven (x * 10 ^ 2) 0 (by push_cast; nlinarith)
    exact_mod_cast hz
  · rw [div_le_iff₀ (by norm_num)]
    have hb := roundHalfEven_le (x * 10 ^ 2) 10000 (by push_cast; nlinarith)
    calc ((roundHalfEven (x * 10 ^ 2) : ℤ) : ℚ) ≤ ((10000 : ℤ) : ℚ) := by exact_mod_cast hb
      _ = 100 * 10 ^ 2 := by norm_num

/-- C8 (amended): the report checks every given record, valid + invalid =
total, the score equals valid/total × 100 ROUNDED to two decimals (0 when no
records were checked, with no division), the score stays within [0, 100],
and the claim's concrete instances hold: 8 valid of 10 scores exactly 80 and
an empty check scores 0. -/
theorem C8_quality_score (records : List StoredRecord) :
    (run_data_quality_check records).total_records_checked = records.length ∧
    (run_data_quality_check records).valid_records
        + (run_data_quality_check records).invalid_records = records.length ∧
    (records = [] → (run_data_quality_check records).data_quality_score = 0) ∧
    (records ≠ [] →
      (run_data_quality_check records).data_quality_score
        = pyRound (((run_data_quality_check records).valid_records : ℚ)
            / (records.length : ℚ) * 100) 2) ∧
    0 ≤ (run_data_quality_check records).data_quality_score ∧
    (run_data_quality_check records).data_quality_score ≤ 100 ∧
    (run_data_quality_check
        (List.replicate 8 recHum45 ++ List.replicate 2 recWeatherErr)).data_quality_score
      = 80 ∧
    (run_data_quality_check ([] : List StoredRecord)).data_quality_score = 0 := by
  have hvalid_le : ((records.map validate_weather_data).filter (·.is_valid)).length
      ≤ records.length := by
    calc ((records.map validate_weather_data).filter (·.is_valid)).length
        ≤ (records.map validate_weather_data).length := List.length_filter_le _ _
      _ = records.length := List.length_map _ _
  have h80 : (run_data_quality_check
      (List.replicate 8 recHum45 ++ List.replicate 2 recWeatherErr)).data_quality_score
      = 80 := by
    have hv8 : ((((List.replicate 8 recHum45 ++ List.replicate 2 recWeatherErr).map
        validate_weather_data).filter (·.is_valid)).length) = 8 := by decide
    have hlen10 : (List.replicate 8 recHum45 ++ List.replicate 2 recWeatherErr).length = 10 := by
      decide
    simp only [run_data_quality_check, hv8, hlen10]
    norm_num [pyRound, roundHalfEven]
  refine ⟨rfl, ?_, fun _ => by subst ‹records = []›; rfl, ?_, ?_, ?_, h80, rfl⟩
  · simp only [run_data_quality_check]
    omega
  · intro hne
    have hpos : 0 < records.length := List.length_pos.mpr hne
    simp only [run_data_quality_check]
    rw [if_pos hpos]
  · by_cases hne : records = []
    · subst hne
      exact le_refl 0
    · have hpos : 0 < records.length := List.length_pos.mpr hne
      have hposq : (0 : ℚ) < (records.length : ℚ) := by exact_mod_cast hpos
      have hxb : (0 : ℚ) ≤ (((records.map validate_weather_data).filter (·.is_valid)).length : ℚ)
          / (records.length : ℚ) * 100 := by positivity
      have hxt : (((records.map validate_weather_data).filter (·.is_valid)).length : ℚ)
          / (records.length : ℚ) * 100 ≤ 100 := by
        have hr : (((records.map validate_weather_data).filter (·.is_valid)).length : ℚ)
            / (records.length : ℚ) ≤ 1 := by
          rw [div_le_one hposq]
          exact_mod_cast hvalid_le
        nlinarith
      have hb := (pyRound2_bounds _ hxb hxt).1
      simp only [run_data_quality_check]
      rw [if_pos hpos]
      exact hb
  · by_cases hne : records = []
    · subst hne
      norm_num [run_data_quality_check]
    · have hpos : 0 < records.length := List.length_pos.mpr hne
      have hposq : (0 : ℚ) < (records.length : ℚ) := by exact_mod_cast hpos
      have hxb : (0 : ℚ) ≤ (((records.map validate_weather_data).filter (·.is_valid)).length : ℚ)
          / (records.length : ℚ) * 100 := by positivity
      have hxt : (((records.map validate_weather_data).filter (·.is_valid)).length : ℚ)
          / (records.length : ℚ) * 100 ≤ 100 := by
        have hr : (((records.map validate_weather_data).filter (·.is_valid)).length : ℚ)
            / (records.length : ℚ) ≤ 1 := by
          rw [div_le_one hposq]
          exact_mod_cast hvalid_le
        nlinarith
      have hb := (pyRound2_bounds _ hxb hxt).2
      simp only [run_data_quality_check]
      rw [if_pos hpos]
      exact hb

/-- C8 witness: the amended theorem at a single in-range record — the score
equals the rounded ratio formula. -/
theorem C8_quality_score_witness :
    (run_data_quality_check [recHum45]).data_quality_score
      = pyRound (((run_data_quality_check [recHum45]).valid_records : ℚ)
          / (([recHum45] : List StoredRecord).length : ℚ) * 100) 2 :=
  (C8_quality_score [recHum45]).2.2.2.1 (by decide)

/-- The per-row map of the upsert's update branch keeps every row's natural
key. -/
lemma updateRow_key (now : ℚ) (r : ObservationRecord) (row : Row) :
    (if sameKey row r.city r.observation_time then applyUpdate now r row else row).city
        = row.city ∧
    (if sameKey row r.city r.observation_time then applyUpdate now r row
        else row).observation_time
      = row.observation_time := by
  split <;> exact ⟨rfl, rfl⟩

/-- The conflict-resolving update of `upsertOne` preserves the at-most-one-
row-per-key invariant. -/
lemma keyUnique_upsertOne (now : ℚ) (t : Table) (r : ObservationRecord)
    (h : keyUnique t) : keyUnique (upsertOne now t r) := by
  unfold upsertOne
  split
  next hany =>
    unfold keyUnique at h ⊢
    simp only
    refine List.Pairwise.map _ ?_ h
    intro a b hab
    intro hcon
    refine hab ⟨?_, ?_⟩
    · rw [← (updateRow_key now r a).1, ← (updateRow_key now r b).1]
      exact hcon.1
    · rw [← (updateRow_key now r a).2, ← (updateRow_key now r b).2]
      exact hcon.2
  next hany =>
    unfold keyUnique at h ⊢
    simp only
    rw [List.pairwise_append]
    refine ⟨h, List.pairwise_singleton _ _, ?_⟩
    intro a ha b hb
    have hb' : b = freshRow now t.nextId r := by simpa using hb
    subst hb'
    intro hcon
    refine hany ?_
    rw [List.any_eq_true]
    exact ⟨a, ha, by
      simp only [sameKey, Bool.and_eq_true, decide_eq_true_eq]
      exact ⟨hcon.1, hcon.2⟩⟩

/-- In a key-unique row list, filtering by the key of a member row yields
exactly that row. -/
lemma filter_singleton_of_pairwise (rows : List Row) (c : Json) (ti : ℚ)
    (hpw : rows.Pairwise (fun a b =>
      ¬ (a.city = b.city ∧ a.observation_time = b.observation_time)))
    (x : Row) (hx : x ∈ rows) (hxk : sameKey x c ti = true) :
    rows.filter (fun row => sameKey row c ti) = [x] := by
  induction rows with
  | nil => cases hx
  | cons a rs ih =>
    rw [List.pairwise_cons] at hpw
    simp only [sameKey, Bool.and_eq_true, decide_eq_true_eq] at hxk
    rcases List.mem_cons.mp hx with rfl | hmem
    · have hak : sameKey x c ti = true := by
        simp only [sameKey, Bool.and_eq_true, decide_eq_true_eq]
        exact hxk
      have hnil : rs.filter (fun row => sameKey row c ti) = [] := by
        rw [List.filter_eq_nil_iff]
        intro b hb hbk
        simp only [sameKey, Bool.and_eq_true, decide_eq_true_eq] at hbk
        exact hpw.1 b hb ⟨hxk.1.trans hbk.1.symm, hxk.2.trans hbk.2.symm⟩
      simp [List.filter_cons, hak, hnil]
    · have hak : sameKey a c ti = false := by
        cases hsk : sameKey a c ti
        · rfl
        · exfalso
          simp only [sameKey, Bool.and_eq_true, decide_eq_true_eq] at hsk
          exact hpw.1 x hmem ⟨hsk.1.trans hxk.1.symm, hsk.2.trans hxk.2.symm⟩
      have hxk' : sameKey x c ti = true := by
        simp only [sameKey, Bool.and_eq_true, decide_eq_true_eq]
        exact hxk
      simp only [List.filter_cons, hak, Bool.false_eq_true, if_false]
      exact ih hpw.2 hmem

/-- Upserting into a key-unique table leaves exactly one row for the
record's natural key, carrying the record's mutable columns and a refreshed
`updated_at`. -/
lemma upsertOne_filter (now : ℚ) (t : Table) (r : ObservationRecord)
    (h : keyUnique t) :
    ∃ row, (upsertOne now t r).rows.filter
        (fun row => sameKey row r.city r.observation_time) = [row] ∧
      row.country = r.country ∧ row.latitude = r.latitude ∧
      row.longitude = r.longitude ∧ row.weather_data = r.weather_data ∧
      row.air_quality_data = r.air_quality_data ∧ row.updated_at = now := by
  unfold upsertOne
  split
  next hany =>
    rw [List.any_eq_true] at hany
    obtain ⟨x, hx, hxk⟩ := hany
    have hone := filter_singleton_of_pairwise t.rows r.city r.observation_time h x hx hxk
    refine ⟨applyUpdate now r x, ?_, rfl, rfl, rfl, rfl, rfl, rfl⟩
    simp only
    rw [List.filter_map]
    have hcongr : t.rows.filter
        ((fun row => sameKey row r.city r.observation_time) ∘
          (fun row => if sameKey row r.city r.observation_time then applyUpdate now r row
            else row))
        = t.rows.filter (fun row => sameKey row r.city r.observation_time) := by
      apply List.filter_congr
      intro row _
      simp only [Function.comp]
      split
      next hrk => rfl
      next hrk => rfl
    rw [hcongr, hone, List.map_cons, List.map_nil, if_pos hxk]
  next hany =>
    refine ⟨freshRow now t.nextId r, ?_, rfl, rfl, rfl, rfl, rfl, rfl⟩
    simp only
    rw [List.filter_append]
    have hnil : t.rows.filter (fun row => sameKey row r.city r.observation_time) = [] := by
      rw [List.filter_eq_nil_iff]
      intro b hb hbk
      refine hany ?_
      rw [List.any_eq_true]
      exact ⟨b, hb, hbk⟩
    rw [hnil]
    simp [sameKey, freshRow]

/-- A whole batch of upserts preserves the at-most-one-row-per-key
invariant. -/
lemma keyUnique_load (now : ℚ) :
    ∀ (obs : List ObservationRecord) (t : Table),
      keyUnique t → keyUnique (obs.foldl (upsertOne now) t) := by
  intro obs
  induction obs with
  | nil => intro t h; exact h
  | cons r rs ih => intro t h; exact ih _ (keyUnique_upsertOne now t r h)

/-- C1: the claim's upsert semantics versus the shipped schema.  The first
two conjuncts evaluate the code against the schema `init_db` creates: the
statement's `ON CONFLICT (city, observation_time)` has no unique arbiter
index there, so PostgreSQL rejects every non-empty batch and nothing is ever
upserted — the claim (and the statement's own conflict target) presuppose a
unique index that `init_db` never creates.  The remaining conjuncts prove
the claim's intended semantics for the upsert statement itself, granted its
arbiter: batches preserve at-most-one-row-per-key, upserting the same key
twice updates in place (no row count growth), and exactly one row for the
key remains, carrying the second payload's mutable columns and a refreshed
update timestamp. -/
theorem C1_upsert_semantics :
    load_observations_to_db initDbIndexes 100 ⟨[], 1⟩ [sampleRec, sampleRec2]
      = .error "there is no unique or exclusion constraint matching the ON CONFLICT specification" ∧
    hasUniqueArbiter initDbIndexes ["city", "observation_time"] = false ∧
    (∀ (now : ℚ) (t : Table) (obs : List ObservationRecord),
      keyUnique t → keyUnique (obs.foldl (upsertOne now) t)) ∧
    (∀ (now₁ now₂ : ℚ) (t : Table) (r₁ r₂ : ObservationRecord),
      keyUnique t → r₁.city = r₂.city → r₁.observation_time = r₂.observation_time →
      (upsertOne now₂ (upsertOne now₁ t r₁) r₂).rows.length
          = (upsertOne now₁ t r₁).rows.length ∧
      ∃ row, (upsertOne now₂ (upsertOne now₁ t r₁) r₂).rows.filter
          (fun row => sameKey row r₂.city r₂.observation_time) = [row] ∧
        row.country = r₂.country ∧ row.latitude = r₂.latitude ∧
        row.longitude = r₂.longitude ∧ row.weather_data = r₂.weather_data ∧
        row.air_quality_data = r₂.air_quality_data ∧ row.updated_at = now₂) := by
  refine ⟨by decide, by decide, fun now t obs h => keyUnique_load now obs t h, ?_⟩
  intro now₁ now₂ t r₁ r₂ h hc ht
  set T := upsertOne now₁ t r₁ with hT
  have h1 : keyUnique T := keyUnique_upsertOne now₁ t r₁ h
  obtain ⟨row₀, hfil, -⟩ := upsertOne_filter now₁ t r₁ h
  have hmem : row₀ ∈ T.rows ∧ sameKey row₀ r₁.city r₁.observation_time = true := by
    have hin : row₀ ∈ T.rows.filter (fun row => sameKey row r₁.city r₁.observation_time) := by
      rw [← hT] at hfil
      rw [hfil]
      simp
    exact List.mem_filter.mp hin
  have hany : T.rows.any (fun row => sameKey row r₂.city r₂.observation_time) = true := by
    rw [List.any_eq_true]
    exact ⟨row₀, hmem.1, by rw [← hc, ← ht]; exact hmem.2⟩
  constructor
  · show (upsertOne now₂ T r₂).rows.length = T.rows.length
    unfold upsertOne
    rw [if_pos hany]
    exact List.length_map _ _
  · exact upsertOne_filter now₂ T r₂ h1

/-- C1 witness: the intended-semantics conjuncts at a concrete empty table
and the two sample payloads sharing one natural key. -/
theorem C1_upsert_semantics_witness :
    (upsertOne 200 (upsertOne 100 ⟨[], 1⟩ sampleRec) sampleRec2).rows.length
        = (upsertOne 100 ⟨[], 1⟩ sampleRec).rows.length ∧
    ∃ row, (upsertOne 200 (upsertOne 100 ⟨[], 1⟩ sampleRec) sampleRec2).rows.filter
        (fun row => sameKey row sampleRec2.city sampleRec2.observation_time) = [row] ∧
      row.country = sampleRec2.country ∧ row.latitude = sampleRec2.latitude ∧
      row.longitude = sampleRec2.longitude ∧ row.weather_data = sampleRec2.weather_data ∧
      row.air_quality_data = sampleRec2.air_quality_data ∧ row.updated_at = 200 :=
  C1_upsert_semantics.2.2.2 100 200 ⟨[], 1⟩ sampleRec sampleRec2
    List.Pairwise.nil rfl rfl

end WeatherPipeline
